import Mathlib

/-!
Shallow embedding of the AML risk-scoring core of the `angela` repository
(backend/app/risk/features.py, backend/app/risk/detectors.py,
backend/app/risk/scoring.py, backend/app/clusters.py, backend/app/nlq.py,
backend/app/counterfactual.py, backend/app/data_loader.py), together with
theorems settling the specification claims about it.

Modelling conventions:
* Python floats (amounts, scores) are modelled as exact rationals.
* Python `round(x, k)` is modelled as round-half-up to k decimals; the
  claims under study never evaluate it at an exact half-way point, where
  it differs from Python float banker rounding.
* Python dicts are modelled as association lists in insertion order
  (CPython dicts preserve insertion order).
* Python sets are modelled as duplicate-free lists in first-seen order;
  CPython set iteration order is unspecified, and every theorem below is
  invariant under the neighbour iteration order.
* `detail` and `summary` strings are presentation-only and are not
  modelled.
-/

namespace Angela

/-- A transaction record, from the snapshot data model
(tx_id, from_id, to_id, amount, timestamp; the remaining source fields
currency / payment_format / bucket_index are never read by the risk core
functions embedded here). -/
structure Tx where
  tx_id : String
  from_id : String
  to_id : String
  amount : ℚ
  timestamp : Int
deriving DecidableEq, Repr

/-- Python max(0.0, min(1.0, x)). -/
def clamp01 (q : ℚ) : ℚ := max 0 (min 1 q)

/-- Python round(x, 4), modelled as round-half-up to 4 decimal places. -/
def round4 (q : ℚ) : ℚ := ((⌊q * 10000 + 1/2⌋ : ℤ) : ℚ) / 10000

/-- Python round(x, 2), modelled as round-half-up to 2 decimal places. -/
def round2 (q : ℚ) : ℚ := ((⌊q * 100 + 1/2⌋ : ℤ) : ℚ) / 100

/-- Association-list lookup, first match wins (Python dict access). -/
def alookup {κ β : Type} [DecidableEq κ] (k : κ) : List (κ × β) → Option β
  | [] => none
  | p :: rest => if k = p.1 then some p.2 else alookup k rest

/-- First-seen deduplication (Python set accumulation). -/
def dedupFS {α : Type} [DecidableEq α] (l : List α) : List α :=
  l.foldl (fun acc x => if x ∈ acc then acc else acc ++ [x]) []

/-- One step of stable insertion: place x before the first y with le x y. -/
def insortBy {α : Type} (le : α → α → Bool) (x : α) : List α → List α
  | [] => [x]
  | y :: ys => if le x y then x :: y :: ys else y :: insortBy le x ys

/-- Stable sort (models Python list.sort / sorted, which are stable). -/
def ssort {α : Type} (le : α → α → Bool) (l : List α) : List α :=
  l.foldr (insortBy le) []

theorem mem_insortBy {α : Type} (le : α → α → Bool) (x : α) (l : List α) (a : α) :
    a ∈ insortBy le x l ↔ a = x ∨ a ∈ l := by
  induction l with
  | nil => simp [insortBy]
  | cons y ys ih =>
      simp only [insortBy]
      by_cases h : le x y
      · simp [h]
      · simp [h, ih]
        tauto

theorem length_insortBy {α : Type} (le : α → α → Bool) (x : α) (l : List α) :
    (insortBy le x l).length = l.length + 1 := by
  induction l with
  | nil => simp [insortBy]
  | cons y ys ih =>
      simp only [insortBy]
      by_cases h : le x y
      · simp [h]
      · simp [h, ih]

theorem mem_ssort {α : Type} (le : α → α → Bool) (l : List α) (a : α) :
    a ∈ ssort le l ↔ a ∈ l := by
  induction l with
  | nil => simp [ssort]
  | cons y ys ih =>
      simp only [ssort, List.foldr_cons] at *
      rw [mem_insortBy]
      simp [ih]

theorem length_ssort {α : Type} (le : α → α → Bool) (l : List α) :
    (ssort le l).length = l.length := by
  induction l with
  | nil => rfl
  | cons y ys ih =>
      simp only [ssort, List.foldr_cons] at *
      rw [length_insortBy, ih, List.length_cons]

theorem pairwise_insortBy {α : Type} (le : α → α → Bool)
    (htot : ∀ a b, le a b = true ∨ le b a = true)
    (htrans : ∀ a b c, le a b = true → le b c = true → le a c = true)
    (x : α) (l : List α) (h : l.Pairwise (fun a b => le a b = true)) :
    (insortBy le x l).Pairwise (fun a b => le a b = true) := by
  induction l with
  | nil => simp [insortBy]
  | cons y ys ih =>
      simp only [insortBy]
      rcases h with _ | ⟨hy, hys⟩
      by_cases hxy : le x y = true
      · rw [if_pos hxy]
        refine List.Pairwise.cons ?_ (List.Pairwise.cons hy hys)
        intro b hb
        rcases List.mem_cons.mp hb with rfl | hb
        · exact hxy
        · exact htrans x y b hxy (hy _ hb)
      · rw [if_neg hxy]
        refine List.Pairwise.cons ?_ (ih hys)
        intro b hb
        rw [mem_insortBy] at hb
        rcases hb with rfl | hb
        · rcases htot b y with h1 | h1
          · exact absurd h1 hxy
          · exact h1
        · exact hy _ hb

theorem pairwise_ssort {α : Type} (le : α → α → Bool)
    (htot : ∀ a b, le a b = true ∨ le b a = true)
    (htrans : ∀ a b c, le a b = true → le b c = true → le a c = true)
    (l : List α) :
    (ssort le l).Pairwise (fun a b => le a b = true) := by
  induction l with
  | nil => simp [ssort]
  | cons y ys ih =>
      simp only [ssort, List.foldr_cons] at *
      exact pairwise_insortBy le htot htrans y _ ih

/-- Stable sort descending by a rational key
(Python list.sort with key=f, reverse=True). -/
def sortKeyDesc {α : Type} (f : α → ℚ) (l : List α) : List α :=
  ssort (fun a b => decide (f b ≤ f a)) l

theorem filter_insort_key {α : Type} (f : α → ℚ) (q : ℚ) (x : α) (m : List α) :
    (insortBy (fun a b => decide (f b ≤ f a)) x m).filter (fun a => decide (f a = q)) =
      if f x = q then x :: m.filter (fun a => decide (f a = q))
      else m.filter (fun a => decide (f a = q)) := by
  induction m with
  | nil =>
      by_cases hx : f x = q <;> simp [insortBy, hx]
  | cons y ys ih =>
      simp only [insortBy]
      by_cases hle : f y ≤ f x
      · rw [if_pos (by simpa using hle)]
        by_cases hx : f x = q <;> simp [hx, List.filter_cons]
      · rw [if_neg (by simpa using hle)]
        push_neg at hle
        by_cases hx : f x = q
        · have hy : ¬ (f y = q) := by
            intro h
            rw [hx] at hle
            exact absurd h (ne_of_gt hle)
          simp [List.filter_cons, hx, hy, ih]
        · by_cases hy : f y = q <;> simp [List.filter_cons, hx, hy, ih]

/-- Stability of the descending sort: elements sharing any key value q keep
their original relative order. -/
theorem filter_sortKeyDesc {α : Type} (f : α → ℚ) (q : ℚ) (l : List α) :
    (sortKeyDesc f l).filter (fun a => decide (f a = q)) =
      l.filter (fun a => decide (f a = q)) := by
  induction l with
  | nil => rfl
  | cons y ys ih =>
      simp only [sortKeyDesc, ssort, List.foldr_cons] at *
      rw [filter_insort_key]
      by_cases hy : f y = q <;> simp [List.filter_cons, hy, ih]

/-- The descending key sort is sorted: later elements have keys no larger. -/
theorem pairwise_sortKeyDesc {α : Type} (f : α → ℚ) (l : List α) :
    (sortKeyDesc f l).Pairwise (fun a b => f b ≤ f a) := by
  have h := pairwise_ssort (fun a b => decide (f b ≤ f a))
    (fun a b => by by_cases h : f b ≤ f a
                   · exact Or.inl (by simpa using h)
                   · exact Or.inr (by simp; linarith [not_le.mp h]))
    (fun a b c hab hbc => by
      simp only [decide_eq_true_eq] at *
      linarith) l
  exact h.imp (by simp)

-- ───────────────────────── Feature extraction ─────────────────────────
-- Source: backend/app/risk/features.py

/-- The per-entity accumulator record built by extract_features before
finalisation (the defaultdict value shape). -/
structure RawFeature where
  tx_out_count : Nat
  tx_in_count : Nat
  tx_out_sum : ℚ
  tx_in_sum : ℚ
  unique_counterparties : List String
  amounts : List ℚ
  timestamps : List Int
deriving Repr

def RawFeature.empty : RawFeature :=
  ⟨0, 0, 0, 0, [], [], []⟩

/-- The accumulator map of extract_features: an association list from
entity id to raw feature record, in dict insertion order (CPython dicts
iterate in insertion order). -/
abbrev FeatAcc : Type := List (String × RawFeature)

/-- defaultdict access: touching key k creates its entry on first access
and applies the update. -/
def touchA (acc : FeatAcc) (k : String) (upd : RawFeature → RawFeature) : FeatAcc :=
  if k ∈ acc.map Prod.fst then
    acc.map (fun p => if p.1 = k then (p.1, upd p.2) else p)
  else acc ++ [(k, upd RawFeature.empty)]

/-- The outbound update for the sender (features.py lines 31-37): note
that amounts and timestamps are appended here, in the outbound block
only. -/
def outUpd (tx : Tx) (f : RawFeature) : RawFeature :=
  { f with
    tx_out_count := f.tx_out_count + 1
    tx_out_sum := f.tx_out_sum + tx.amount
    unique_counterparties :=
      if tx.from_id = tx.to_id then f.unique_counterparties
      else if tx.to_id ∈ f.unique_counterparties then f.unique_counterparties
      else f.unique_counterparties ++ [tx.to_id]
    amounts := f.amounts ++ [tx.amount]
    timestamps := f.timestamps ++ [tx.timestamp] }

/-- The inbound update for the receiver (features.py lines 40-44). -/
def inUpd (tx : Tx) (f : RawFeature) : RawFeature :=
  { f with
    tx_in_count := f.tx_in_count + 1
    tx_in_sum := f.tx_in_sum + tx.amount
    unique_counterparties :=
      if tx.from_id = tx.to_id then f.unique_counterparties
      else if tx.from_id ∈ f.unique_counterparties then f.unique_counterparties
      else f.unique_counterparties ++ [tx.from_id] }

def stepTx (acc : FeatAcc) (tx : Tx) : FeatAcc :=
  touchA (touchA acc tx.from_id (outUpd tx)) tx.to_id (inUpd tx)

def extractAcc (transactions : List Tx) : FeatAcc :=
  transactions.foldl stepTx []

/-- The finalised FeatureRecord (entity x bucket). -/
structure Feature where
  tx_out_count : Nat
  tx_in_count : Nat
  tx_out_sum : ℚ
  tx_in_sum : ℚ
  total_tx : Nat
  unique_counterparties : Nat
  tx_per_minute : ℚ
  amounts : List ℚ
deriving DecidableEq, Repr

def listMaxI (l : List Int) : Int := l.foldl max (l.headD 0)

def listMinI (l : List Int) : Int := l.foldl min (l.headD 0)

/-- features.py lines 48-68: finalisation of one accumulator record. -/
def finalize (f : RawFeature) : Feature :=
  let total_tx := f.tx_out_count + f.tx_in_count
  let tx_per_minute : ℚ :=
    if f.timestamps.length ≥ 2 then
      let time_span : Int := listMaxI f.timestamps - listMinI f.timestamps
      ((f.timestamps.length : ℚ) / ((max time_span 1 : Int) : ℚ)) * 60
    else 0
  { tx_out_count := f.tx_out_count
    tx_in_count := f.tx_in_count
    tx_out_sum := round2 f.tx_out_sum
    tx_in_sum := round2 f.tx_in_sum
    total_tx := total_tx
    unique_counterparties := f.unique_counterparties.length
    tx_per_minute := round4 tx_per_minute
    amounts := f.amounts }

/-- extract_features (features.py lines 6-70).  The bucket_size_seconds
argument is accepted and unused, exactly as in the source. -/
def extract_features (transactions : List Tx) (bucket_size_seconds : Nat) :
    List (String × Feature) :=
  (extractAcc transactions).map (fun p => (p.1, finalize p.2))

-- ───────────────────────── Detectors ─────────────────────────
-- Source: backend/app/risk/detectors.py

structure VelEv where
  tx_count : Nat
  tx_per_minute : ℚ
  population_median : Nat
  population_p95 : Nat
deriving DecidableEq, Repr

structure StructEv where
  near_threshold_count : Nat
  threshold : ℚ
  delta : ℚ
deriving DecidableEq, Repr

structure CircEv where
  cycle_count : Nat
  shortest_cycle_length : Nat
  counterparties : List String
deriving DecidableEq, Repr

/-- A detector result: score plus its evidence payload; none models the
canonical empty-evidence no-signal result. -/
structure DetRes (ε : Type) where
  score : ℚ
  evidence : Option ε
deriving DecidableEq, Repr

/-- Population p50 and p95 of total_tx by sorted-index lookup
(detectors.py lines 20-22).  Python int(len*0.95) is modelled as
(len*95)/100 in natural division; the two agree for every list length
within floating-point range of interest. -/
def population_stats (all_features : List (String × Feature)) : Nat × Nat :=
  let all_totals := ssort (fun a b => decide (a ≤ b))
    (all_features.map (fun p => p.2.total_tx))
  let n := all_totals.length
  (all_totals.getD (n / 2) 0, all_totals.getD (n * 95 / 100) 0)

/-- velocity_detector (detectors.py lines 6-38). -/
def velocity_detector (features : Feature) (all_features : List (String × Feature)) :
    DetRes VelEv :=
  if all_features.map (fun p => p.2.total_tx) = [] then ⟨0, none⟩
  else
    let p := population_stats all_features
    let p50 := p.1
    let p95 := p.2
    let score : ℚ :=
      if p95 ≤ p50 then 0
      else clamp01 (((features.total_tx : ℚ) - (p50 : ℚ)) /
        ((max ((p95 : Int) - (p50 : Int)) 1 : Int) : ℚ))
    ⟨score, some ⟨features.total_tx, features.tx_per_minute, p50, p95⟩⟩

def STRUCTURING_THRESHOLD : ℚ := 10000
def STRUCTURING_DELTA : ℚ := 1000

/-- The lower bound threshold - delta of the structuring band, written as
the literal it evaluates to. -/
def STRUCTURING_LOWER : ℚ := 9000

theorem STRUCTURING_LOWER_eq :
    STRUCTURING_LOWER = STRUCTURING_THRESHOLD - STRUCTURING_DELTA := by
  norm_num [STRUCTURING_LOWER, STRUCTURING_THRESHOLD, STRUCTURING_DELTA]

/-- structuring_detector (detectors.py lines 45-69).  It inspects the
amounts list of the FeatureRecord. -/
def structuring_detector (features : Feature) : DetRes StructEv :=
  if features.amounts = [] then ⟨0, none⟩
  else
    let count := (features.amounts.filter
      (fun a => decide (STRUCTURING_LOWER ≤ a) && decide (a < STRUCTURING_THRESHOLD))).length
    let score : ℚ := if 0 < count then clamp01 (((count : ℚ) - 1) / 4) else 0
    ⟨score, some ⟨count, STRUCTURING_THRESHOLD, STRUCTURING_DELTA⟩⟩

/-- Directed adjacency of a bucket, self-loops excluded
(detectors.py lines 83-86).  The source stores neighbours in a Python
set whose iteration order is unspecified; we fix first-seen order, and
every property proved below is independent of that order. -/
def adjList (transactions : List Tx) (n : String) : List String :=
  dedupFS (transactions.filterMap
    (fun tx => if tx.from_id = n ∧ tx.from_id ≠ tx.to_id then some tx.to_id else none))

/-- The DFS state: the nonlocal visits counter and the cycles_found
accumulator. -/
structure DfsState where
  visits : Nat
  cycles : List (List String)
deriving DecidableEq, Repr

/-- The neighbour loop of the recursive dfs of circular_flow_detector
(detectors.py lines 96-107): process the pending neighbours of the
current node in order.  rec_ is the recursive descent one level deeper.
A budget hit (the post-increment check of line 98) abandons the
remaining neighbours of this level, exactly like the source return. -/
def dfsNb (entity_id : String) (maxDepth maxVisits : Nat)
    (rec_ : String → List String → Nat → DfsState → DfsState) :
    List String → List String → Nat → DfsState → DfsState
  | [], _, _, st => st
  | n :: rest, path, depth, st =>
    let v := st.visits + 1
    if v ≥ maxVisits then { st with visits := v }
    else if n = entity_id ∧ 2 ≤ depth then
      dfsNb entity_id maxDepth maxVisits rec_ rest path depth
        { visits := v, cycles := st.cycles ++ [path ++ [n]] }
    else if n ∉ path ∧ depth < maxDepth then
      dfsNb entity_id maxDepth maxVisits rec_ rest path depth
        (rec_ n (path ++ [n]) (depth + 1) { st with visits := v })
    else
      dfsNb entity_id maxDepth maxVisits rec_ rest path depth { st with visits := v }

/-- The recursive dfs (detectors.py lines 91-107), driven by a gas
counter that only bounds the recursion depth structurally: every call
satisfies maxDepth - depth + 1 ≤ gas, and descent requires
depth < maxDepth, so the gas-zero branch is never taken from the call
below.  The entry budget check of line 93 is subsumed: recursive entries
always follow the caller's post-increment check, and the top-level entry
with a zero budget is guarded at the call site. -/
def dfs (adj : String → List String) (entity_id : String) (maxDepth maxVisits : Nat) :
    Nat → String → List String → Nat → DfsState → DfsState
  | 0, _, _, _, st => st
  | gas + 1, current, path, depth, st =>
    dfsNb entity_id maxDepth maxVisits (dfs adj entity_id maxDepth maxVisits gas)
      (adj current) path depth st

/-- Length of the shortest recorded cycle: min(len(c) for c in cycles).
Only evaluated on a nonempty list. -/
def minCycleLen : List (List String) → Nat
  | [] => 0
  | c :: cs => cs.foldl (fun m x => min m x.length) c.length

/-- The DFS state after the top-level dfs(entity_id, [entity_id], 1)
call of detectors.py line 109 (guarded by the entry budget check for a
zero budget). -/
def circState (entity_id : String) (transactions : List Tx)
    (max_depth max_visits : Nat) : DfsState :=
  if 0 ≥ max_visits then DfsState.mk 0 []
  else dfs (adjList transactions) entity_id max_depth max_visits (max_depth + 1)
    entity_id [entity_id] 1 ⟨0, []⟩

/-- circular_flow_detector (detectors.py lines 72-132).  max_depth and
max_visits are explicit arguments; the source defaults are 4 and 500 and
are passed explicitly at every call site below. -/
def circular_flow_detector (entity_id : String) (transactions : List Tx)
    (max_depth max_visits : Nat) : DetRes CircEv :=
  let st := circState entity_id transactions max_depth max_visits
  if st.cycles = [] then ⟨0, none⟩
  else
    let shortest := minCycleLen st.cycles
    let score := clamp01 (1 - ((shortest : ℚ) - 3) * (3/10))
    let cycle_entities := dedupFS (st.cycles.flatten.filter (fun x => decide (x ≠ entity_id)))
    ⟨score, some ⟨st.cycles.length, shortest,
      (ssort (fun a b => decide (a ≤ b)) cycle_entities).take 10⟩⟩

-- ───────────────────────── Risk fusion ─────────────────────────
-- Source: backend/app/risk/scoring.py

def W_VELOCITY : ℚ := 0.4
def W_STRUCTURING : ℚ := 0.3
def W_CIRCULAR : ℚ := 0.3

def detVelocity : String := "velocity"
def detStructuring : String := "structuring"
def detCircular : String := "circular_flow"

/-- One entry of the reasons list ({detector, detail, weight}; the detail
string is presentation-only and not modelled). -/
structure Reason where
  detector : String
  weight : ℚ
deriving DecidableEq, Repr

/-- The evidence bundle: one optional key per detector (a key is present
exactly when the source dict holds it), plus flagged_tx_ids, where the
empty list models the absent key. -/
structure Evidence where
  structuring : Option StructEv
  circular_flow : Option CircEv
  velocity : Option VelEv
  flagged_tx_ids : List String
deriving DecidableEq, Repr

def Evidence.empty : Evidence := ⟨none, none, none, []⟩

structure RiskRecord where
  risk_score : ℚ
  reasons : List Reason
  evidence : Evidence
deriving DecidableEq, Repr

def RiskRecord.zero : RiskRecord := ⟨0, [], Evidence.empty⟩

/-- scoring.py lines 46-68: gather a reason per detector whose score
exceeds 0.05, sort by weight descending (Python sort is stable),
truncate to three. -/
def candReasons (vel : DetRes VelEv) (struct : DetRes StructEv)
    (circ : DetRes CircEv) : List Reason :=
  (if 0.05 < vel.score then [Reason.mk detVelocity (round4 (W_VELOCITY * vel.score))] else []) ++
  (if 0.05 < struct.score then [Reason.mk detStructuring (round4 (W_STRUCTURING * struct.score))] else []) ++
  (if 0.05 < circ.score then [Reason.mk detCircular (round4 (W_CIRCULAR * circ.score))] else [])

def buildReasons (vel : DetRes VelEv) (struct : DetRes StructEv)
    (circ : DetRes CircEv) : List Reason :=
  (sortKeyDesc Reason.weight (candReasons vel struct circ)).take 3

/-- scoring.py lines 70-90: evidence from each qualifying detector, plus
flagged structuring transaction ids (outbound, in the structuring band,
capped at 20).  The band bounds are read back from the structuring
evidence payload in the source; they are the STRUCTURING constants
whenever that payload exists, which it does whenever the score
qualifies. -/
def buildEvidence (entity_id : String) (transactions : List Tx)
    (vel : DetRes VelEv) (struct : DetRes StructEv) (circ : DetRes CircEv) : Evidence :=
  let lower := STRUCTURING_LOWER
  let flagged :=
    if 0.05 < struct.score then
      ((transactions.filter (fun tx =>
        tx.from_id == entity_id && decide (lower ≤ tx.amount) &&
          decide (tx.amount < STRUCTURING_THRESHOLD))).map Tx.tx_id).take 20
    else []
  { structuring := if 0.05 < struct.score then struct.evidence else none
    circular_flow := if 0.05 < circ.score then circ.evidence else none
    velocity := if 0.05 < vel.score then vel.evidence else none
    flagged_tx_ids := flagged }

/-- The loop body of compute_risk_for_bucket (scoring.py lines 31-96):
the fused RiskRecord of one entity given its features and the features
of every entity in the bucket. -/
def entityRisk (transactions : List Tx) (bucket_size_seconds : Nat)
    (entity_id : String) (features : Feature) : RiskRecord :=
  let all_features := extract_features transactions bucket_size_seconds
  let vel := velocity_detector features all_features
  let struct := structuring_detector features
  let circ := circular_flow_detector entity_id transactions 4 500
  let raw_score := W_VELOCITY * vel.score + W_STRUCTURING * struct.score +
    W_CIRCULAR * circ.score
  { risk_score := round4 (clamp01 raw_score)
    reasons := buildReasons vel struct circ
    evidence := buildEvidence entity_id transactions vel struct circ }

/-- compute_risk_for_bucket (scoring.py lines 15-98). -/
def compute_risk_for_bucket (transactions : List Tx) (bucket_size_seconds : Nat) :
    List (String × RiskRecord) :=
  if transactions = [] then []
  else
    (extract_features transactions bucket_size_seconds).map (fun p =>
      (p.1, entityRisk transactions bucket_size_seconds p.1 p.2))

-- ───────────────────────── Snapshot store ─────────────────────────
-- Source: backend/app/data_loader.py

structure Entity where
  id : String
  type_ : String
  bank : String
  jurisdiction_bucket : Nat
  kyc_level : String
deriving DecidableEq, Repr

/-- The DataStore state read by the functions below: transactions, the
bucket to transaction-index map, bucket metadata, precomputed risk per
bucket, and the entity list. -/
structure Store where
  transactions : List Tx
  bucket_index : List (Nat × List Nat)
  bucket_size_seconds : Nat
  risk_by_bucket : List (Nat × List (String × RiskRecord))
  entities : List Entity
deriving DecidableEq, Repr

/-- DataStore.get_bucket_transactions (data_loader.py lines 106-108):
the bucket indices in stored order, resolved against the global
transaction list.  An out-of-range index (which raises in the source)
is dropped. -/
def get_bucket_transactions (s : Store) (bucket : Nat) : List Tx :=
  ((alookup bucket s.bucket_index).getD []).filterMap (fun i => s.transactions.get? i)

/-- DataStore.get_entity_risk (data_loader.py lines 94-101). -/
def get_entity_risk (s : Store) (bucket : Nat) (entity_id : String) : RiskRecord :=
  (alookup entity_id ((alookup bucket s.risk_by_bucket).getD [])).getD RiskRecord.zero

-- ───────────────────────── Cluster detection ─────────────────────────
-- Source: backend/app/clusters.py

structure Cluster where
  cluster_id : String
  entity_ids : List String
  risk_score : ℚ
  size : Nat
deriving DecidableEq, Repr

/-- The high-risk entity set (clusters.py line 16), in first-seen order. -/
def high_risk_ids (risk_data : List (String × RiskRecord)) (threshold : ℚ) : List String :=
  dedupFS ((risk_data.filter (fun p => decide (threshold ≤ p.2.risk_score))).map
    (fun p => p.1))

/-- Undirected adjacency restricted to high-risk entities, self-loops
excluded (clusters.py lines 21-26), neighbours in first-seen order. -/
def clusterAdj (transactions : List Tx) (high_risk : List String) (x : String) :
    List String :=
  dedupFS (transactions.filterMap (fun tx =>
    if tx.from_id ≠ tx.to_id ∧ tx.from_id ∈ high_risk ∧ tx.to_id ∈ high_risk then
      (if tx.from_id = x then some tx.to_id
       else if tx.to_id = x then some tx.from_id else none)
    else none))

/-- The BFS loop of clusters.py lines 42-48, with an explicit iteration
budget.  Each iteration pops one queue entry; every queued node was
added to visited at enqueue time, so a budget of the number of high-risk
nodes is enough for the queue to drain (the budget-zero branch is never
taken at the call site below). -/
def bfs (adj : String → List String) :
    Nat → List String → List String → List String → List String × List String
  | 0, _, visited, component => (component, visited)
  | _ + 1, [], visited, component => (component, visited)
  | fuel + 1, current :: queue, visited, component =>
    let component := component ++ [current]
    let qv := (adj current).foldl
      (fun qv nb => if nb ∈ qv.2 then qv else (qv.1 ++ [nb], qv.2 ++ [nb]))
      (queue, visited)
    bfs adj fuel qv.1 qv.2 component

/-- One iteration of the detect_clusters loop (clusters.py lines 33-58):
skip visited entities, BFS the component of an unvisited one, and record
it when its size is at least 2. -/
def clusterStep (adj : String → List String) (riskOf : String → ℚ) (fuel : Nat)
    (acc : List String × List Cluster) (eid : String) : List String × List Cluster :=
  if eid ∈ acc.1 then acc
  else
    let r := bfs adj fuel [eid] (acc.1 ++ [eid]) []
    if 2 ≤ r.1.length then
      (r.2, acc.2 ++ [{ cluster_id := "cluster_" ++ toString acc.2.length
                        entity_ids := ssort (fun a b => decide (a ≤ b)) r.1
                        risk_score := round4 ((r.1.map riskOf).sum / (r.1.length : ℚ))
                        size := r.1.length }])
    else (r.2, acc.2)

/-- detect_clusters (clusters.py lines 6-60).  The threshold argument is
explicit; the source default 0.3 is passed explicitly at call sites.
The BFS iteration budget high_risk.length is enough for the queue to
drain: all queued nodes are high-risk, each is enqueued at most once
(enqueuing adds it to visited), and every iteration pops one node. -/
def detect_clusters (risk_data : List (String × RiskRecord)) (transactions : List Tx)
    (threshold : ℚ) : List Cluster :=
  let high_risk := high_risk_ids risk_data threshold
  if high_risk = [] then []
  else
    let adj := clusterAdj transactions high_risk
    let sortedHigh := ssort (fun a b => decide (a ≤ b)) high_risk
    let riskOf := fun eid => ((alookup eid risk_data).getD RiskRecord.zero).risk_score
    (sortedHigh.foldl (clusterStep adj riskOf high_risk.length)
      (([] : List String), ([] : List Cluster))).2

-- ───────────────────────── Query executor ─────────────────────────
-- Source: backend/app/nlq.py

structure QEdge where
  from_id : String
  to_id : String
  amount : ℚ
deriving DecidableEq, Repr

structure QueryRes where
  entity_ids : List String
  edges : List QEdge
  total_count : Nat
deriving DecidableEq, Repr

/-- nlq.py lines 252-264: deduplicated (by endpoint pair, first-seen
order) edges between matched entities, capped at 200. -/
def edges_between (entity_ids : List String) (s : Store) (bucket : Nat) : List QEdge :=
  ((get_bucket_transactions s bucket).foldl (fun acc tx =>
    if tx.from_id ∈ entity_ids ∧ tx.to_id ∈ entity_ids ∧ tx.from_id ≠ tx.to_id ∧
        (acc.map (fun e => (e.from_id, e.to_id))).all
          (fun k => decide (k ≠ (tx.from_id, tx.to_id))) then
      acc ++ [⟨tx.from_id, tx.to_id, tx.amount⟩]
    else acc) []).take 200

/-- _handle_high_risk (nlq.py lines 107-125). -/
def handle_high_risk (s : Store) (min_risk : ℚ) (bucket : Nat) : QueryRes :=
  let risk_data := (alookup bucket s.risk_by_bucket).getD []
  let matched := (risk_data.filter (fun p => decide (min_risk ≤ p.2.risk_score))).map
    (fun p => p.1)
  let key := fun eid => ((alookup eid risk_data).getD RiskRecord.zero).risk_score
  let ranked := sortKeyDesc key matched
  { entity_ids := ranked.take 50
    edges := edges_between ranked s bucket
    total_count := ranked.length }

-- ───────────────────────── Counterfactual engine ─────────────────────────
-- Source: backend/app/counterfactual.py

def MAX_REMOVED_EDGES : Nat := 50

structure SuspEdge where
  from_id : String
  to_id : String
  amount : ℚ
  reason : String
deriving DecidableEq, Repr

def SuspEdge.key (e : SuspEdge) : String × String × ℚ := (e.from_id, e.to_id, e.amount)

def Tx.key (tx : Tx) : String × String × ℚ := (tx.from_id, tx.to_id, tx.amount)

/-- Append an edge unless its (from_id, to_id, amount) key was already
seen; the source maintains the seen set in lockstep with the suspicious
list, so the seen set is exactly the key set of the accumulator. -/
def addEdge (acc : List SuspEdge) (tx : Tx) (reason : String) : List SuspEdge :=
  if Tx.key tx ∈ acc.map SuspEdge.key then acc
  else acc ++ [⟨tx.from_id, tx.to_id, tx.amount, reason⟩]

/-- _identify_suspicious_edges (counterfactual.py lines 80-146). -/
def identify_suspicious_edges (entity_id : String) (transactions : List Tx)
    (risk_data : RiskRecord) : List SuspEdge :=
  let evidence := risk_data.evidence
  let entity_tx := transactions.filter
    (fun tx => tx.from_id == entity_id || tx.to_id == entity_id)
  let lower := STRUCTURING_LOWER
  -- 1) structuring: the entity's transactions in the near-threshold band
  let acc1 :=
    if 0 < ((evidence.structuring.map StructEv.near_threshold_count).getD 0) then
      entity_tx.foldl (fun acc tx =>
        if lower ≤ tx.amount ∧ tx.amount < STRUCTURING_THRESHOLD then
          addEdge acc tx detStructuring
        else acc) []
    else []
  -- 2) circular flow: transactions whose counterparty is a recorded
  --    cycle counterparty (the truthiness test is list nonemptiness)
  let cycle_parties := (evidence.circular_flow.map CircEv.counterparties).getD []
  let acc2 :=
    if cycle_parties ≠ [] then
      entity_tx.foldl (fun acc tx =>
        let other := if tx.from_id = entity_id then tx.to_id else tx.from_id
        if other ∈ cycle_parties then addEdge acc tx detCircular else acc) acc1
    else acc1
  -- 3) velocity: if tx_count exceeded the population p95, flag
  --    consecutive (timestamp-sorted) transactions under 120s apart;
  --    absent velocity evidence compares 0 > inf, which is false
  let acc3 :=
    if (evidence.velocity.map (fun ev => decide (ev.population_p95 < ev.tx_count))).getD
        false then
      let sorted_tx := ssort (fun (a b : Tx) => decide (a.timestamp ≤ b.timestamp)) entity_tx
      (sorted_tx.zip sorted_tx.tail).foldl (fun acc (pr : Tx × Tx) =>
        if pr.2.timestamp - pr.1.timestamp < 120 then addEdge acc pr.2 detVelocity
        else acc) acc2
    else acc2
  acc3.take MAX_REMOVED_EDGES

structure CfDelta where
  risk_score : ℚ
  tx_count_removed : Nat
deriving DecidableEq, Repr

structure CfResult where
  entity_id : String
  bucket : Nat
  original : RiskRecord
  counterfactual : RiskRecord
  removed_edges : List SuspEdge
  delta : CfDelta
deriving DecidableEq, Repr

/-- compute_counterfactual (counterfactual.py lines 20-77). -/
def compute_counterfactual (s : Store) (entity_id : String) (bucket : Nat) : CfResult :=
  let bucket_tx := get_bucket_transactions s bucket
  let bucket_size := s.bucket_size_seconds
  let original_risk := get_entity_risk s bucket entity_id
  let suspicious := identify_suspicious_edges entity_id bucket_tx original_risk
  let suspicious_keys := suspicious.map SuspEdge.key
  let cleaned_tx := bucket_tx.filter (fun tx => decide (Tx.key tx ∉ suspicious_keys))
  let cleaned_risk_data := compute_risk_for_bucket cleaned_tx bucket_size
  let counterfactual_risk := (alookup entity_id cleaned_risk_data).getD RiskRecord.zero
  { entity_id := entity_id
    bucket := bucket
    original := original_risk
    counterfactual := counterfactual_risk
    removed_edges := suspicious.take MAX_REMOVED_EDGES
    delta := ⟨round4 (counterfactual_risk.risk_score - original_risk.risk_score),
              suspicious.length⟩ }

/-- compute_counterfactual with the snapshot store threaded explicitly
through every statement that touches it, in source order: each read
returns the store it was given, and no statement replaces it. -/
def compute_counterfactual_st (s : Store) (entity_id : String) (bucket : Nat) :
    CfResult × Store :=
  let p1 := (get_bucket_transactions s bucket, s)
  let bucket_tx := p1.1
  let p2 := (p1.2.bucket_size_seconds, p1.2)
  let bucket_size := p2.1
  let p3 := (get_entity_risk p2.2 bucket entity_id, p2.2)
  let original_risk := p3.1
  let suspicious := identify_suspicious_edges entity_id bucket_tx original_risk
  let suspicious_keys := suspicious.map SuspEdge.key
  let cleaned_tx := bucket_tx.filter (fun tx => decide (Tx.key tx ∉ suspicious_keys))
  let cleaned_risk_data := compute_risk_for_bucket cleaned_tx bucket_size
  let counterfactual_risk := (alookup entity_id cleaned_risk_data).getD RiskRecord.zero
  ({ entity_id := entity_id
     bucket := bucket
     original := original_risk
     counterfactual := counterfactual_risk
     removed_edges := suspicious.take MAX_REMOVED_EDGES
     delta := ⟨round4 (counterfactual_risk.risk_score - original_risk.risk_score),
               suspicious.length⟩ }, p3.2)

-- ───────────────────────── General lemmas ─────────────────────────

theorem alookup_map_values {κ β γ : Type} [DecidableEq κ] (g : κ → β → γ) (k : κ) :
    ∀ l : List (κ × β),
      alookup k (l.map (fun p => (p.1, g p.1 p.2))) = (alookup k l).map (g k)
  | [] => rfl
  | p :: rest => by
      simp only [List.map_cons, alookup]
      by_cases h : k = p.1
      · subst h
        simp
      · simp [h, alookup_map_values g k rest]

theorem alookup_isSome_iff {κ β : Type} [DecidableEq κ] (k : κ) :
    ∀ l : List (κ × β), (alookup k l).isSome ↔ k ∈ l.map Prod.fst
  | [] => by simp [alookup]
  | p :: rest => by
      simp only [alookup, List.map_cons, List.mem_cons]
      by_cases h : k = p.1
      · simp [h]
      · simp [h, alookup_isSome_iff k rest]

theorem alookup_eq_none_iff {κ β : Type} [DecidableEq κ] (k : κ) (l : List (κ × β)) :
    alookup k l = none ↔ k ∉ l.map Prod.fst := by
  rw [← alookup_isSome_iff]
  cases alookup k l <;> simp

theorem alookup_append {κ β : Type} [DecidableEq κ] (k : κ) :
    ∀ l m : List (κ × β),
      alookup k (l ++ m) = ((alookup k l).map some).getD (alookup k m)
  | [], m => rfl
  | p :: rest, m => by
      simp only [List.cons_append, alookup]
      by_cases h : k = p.1
      · simp [h]
      · simp [h, alookup_append k rest m]

theorem alookup_update_map (e k : String) (upd : RawFeature → RawFeature) :
    ∀ l : FeatAcc,
      alookup e (l.map (fun p => if p.1 = k then (p.1, upd p.2) else p)) =
        if e = k then (alookup e l).map upd else alookup e l
  | [] => by by_cases h : e = k <;> simp [alookup, h]
  | p :: rest => by
      have ih := alookup_update_map e k upd rest
      by_cases hp : p.1 = k
      · by_cases he : e = p.1
        · simp [alookup, hp, he, he.trans hp]
        · have hek : e = k ↔ False := by
            constructor
            · intro h
              exact he (h.trans hp.symm)
            · exact False.elim
          simp only [List.map_cons, if_pos hp, alookup, if_neg he, ih]
      · by_cases he : e = p.1
        · have hek : ¬ e = k := fun h => hp (he.symm.trans h)
          simp [alookup, hp, he, hek]
        · simp [alookup, hp, he, ih]

/-- Lookup through a defaultdict touch: the touched key holds the update
of its previous record (or of the fresh empty record), and every other
key is untouched. -/
theorem alookup_touchA (e k : String) (upd : RawFeature → RawFeature) (acc : FeatAcc) :
    alookup e (touchA acc k upd) =
      if e = k then some (upd (((alookup e acc).getD RawFeature.empty)))
      else alookup e acc := by
  unfold touchA
  by_cases hmem : k ∈ acc.map Prod.fst
  · rw [if_pos hmem, alookup_update_map]
    by_cases he : e = k
    · subst he
      have hsome : (alookup e acc).isSome := (alookup_isSome_iff e acc).mpr hmem
      cases halo : alookup e acc with
      | none => rw [halo] at hsome; simp at hsome
      | some v => simp [halo]
    · simp [he]
  · rw [if_neg hmem, alookup_append]
    by_cases he : e = k
    · subst he
      rw [(alookup_eq_none_iff e acc).mpr hmem]
      simp [alookup]
    · cases halo : alookup e acc with
      | none => simp [alookup, he, halo]
      | some v => simp [alookup, he, halo]

theorem inUpd_amounts (tx : Tx) (f : RawFeature) : (inUpd tx f).amounts = f.amounts := rfl

theorem outUpd_amounts (tx : Tx) (f : RawFeature) :
    (outUpd tx f).amounts = f.amounts ++ [tx.amount] := rfl

/-- One transaction appends its amount to the sender's amounts list and
to nobody else's: the amounts list of the receiver is untouched. -/
theorem stepTx_amounts (acc : FeatAcc) (tx : Tx) (e : String) :
    ((alookup e (stepTx acc tx)).getD RawFeature.empty).amounts =
      ((alookup e acc).getD RawFeature.empty).amounts ++
        (if tx.from_id = e then [tx.amount] else []) := by
  unfold stepTx
  rw [alookup_touchA]
  by_cases hto : e = tx.to_id
  · rw [if_pos hto, alookup_touchA]
    by_cases hfrom : e = tx.from_id
    · rw [if_pos hfrom]
      simp [inUpd_amounts, outUpd_amounts, hfrom]
    · rw [if_neg hfrom]
      have : ¬ tx.from_id = e := fun h => hfrom h.symm
      simp [inUpd_amounts, this]
  · rw [if_neg hto, alookup_touchA]
    by_cases hfrom : e = tx.from_id
    · rw [if_pos hfrom]
      simp [outUpd_amounts, hfrom]
    · rw [if_neg hfrom]
      have : ¬ tx.from_id = e := fun h => hfrom h.symm
      simp [this]

theorem extractAcc_amounts_aux (e : String) :
    ∀ (txs : List Tx) (acc : FeatAcc),
      ((alookup e (txs.foldl stepTx acc)).getD RawFeature.empty).amounts =
        ((alookup e acc).getD RawFeature.empty).amounts ++
          (txs.filter (fun tx => tx.from_id == e)).map Tx.amount
  | [], acc => by simp
  | tx :: rest, acc => by
      rw [List.foldl_cons, extractAcc_amounts_aux e rest (stepTx acc tx), stepTx_amounts,
        List.filter_cons]
      by_cases h : tx.from_id = e
      · simp [h]
      · simp [h]

/-- The amounts list accumulated for an entity consists of exactly the
amounts of its outbound transactions, in bucket order (features.py line
36 appends only in the outbound block). -/
theorem extractAcc_amounts (e : String) (txs : List Tx) :
    ((alookup e (extractAcc txs)).getD RawFeature.empty).amounts =
      (txs.filter (fun tx => tx.from_id == e)).map Tx.amount := by
  rw [extractAcc, extractAcc_amounts_aux]
  simp [alookup, RawFeature.empty]

theorem alookup_extract_features (e : String) (txs : List Tx) (bs : Nat) :
    alookup e (extract_features txs bs) = (alookup e (extractAcc txs)).map finalize := by
  rw [extract_features]
  exact alookup_map_values (fun _ f => finalize f) e (extractAcc txs)

theorem finalize_amounts (f : RawFeature) : (finalize f).amounts = f.amounts := rfl

/-- The finalised FeatureRecord amounts of an entity are exactly its
outbound amounts in bucket order. -/
theorem extract_features_amounts (e : String) (txs : List Tx) (bs : Nat) :
    ((alookup e (extract_features txs bs)).getD (finalize RawFeature.empty)).amounts =
      (txs.filter (fun tx => tx.from_id == e)).map Tx.amount := by
  rw [alookup_extract_features]
  cases halo : alookup e (extractAcc txs) with
  | none =>
      have := extractAcc_amounts e txs
      rw [halo] at this
      simpa using this
  | some v =>
      have := extractAcc_amounts e txs
      rw [halo] at this
      simpa [finalize_amounts] using this

-- ─────────────── Graph predicates and the DFS invariant ───────────────

/-- A directed edge of the bucket graph as the detector builds it:
some transaction goes a to b, self-loops excluded. -/
def dEdge (txs : List Tx) (a b : String) : Prop :=
  ∃ tx ∈ txs, tx.from_id = a ∧ tx.to_id = b ∧ a ≠ b

/-- Consecutive elements of the list are directed edges. -/
def dChain (txs : List Tx) : List String → Prop
  | a :: b :: rest => dEdge txs a b ∧ dChain txs (b :: rest)
  | _ => True

/-- The bucket graph is acyclic: no nonempty directed walk returns to
its start node. -/
def Acyclic (txs : List Tx) : Prop :=
  ∀ (n : String) (l : List String), ¬ dChain txs (n :: (l ++ [n]))

theorem mem_dedupFS_aux {α : Type} [DecidableEq α] (x : α) :
    ∀ (l acc : List α),
      x ∈ l.foldl (fun acc y => if y ∈ acc then acc else acc ++ [y]) acc ↔
        x ∈ acc ∨ x ∈ l
  | [], acc => by simp
  | y :: rest, acc => by
      simp only [List.foldl_cons]
      rw [mem_dedupFS_aux x rest]
      by_cases h : y ∈ acc
      · rw [if_pos h]
        constructor
        · rintro (h1 | h1)
          · exact Or.inl h1
          · exact Or.inr (List.mem_cons_of_mem y h1)
        · rintro (h1 | h1)
          · exact Or.inl h1
          · rcases List.mem_cons.mp h1 with rfl | h1
            · exact Or.inl h
            · exact Or.inr h1
      · rw [if_neg h]
        simp only [List.mem_append, List.mem_singleton, List.mem_cons]
        tauto

theorem mem_dedupFS {α : Type} [DecidableEq α] (x : α) (l : List α) :
    x ∈ dedupFS l ↔ x ∈ l := by
  rw [dedupFS, mem_dedupFS_aux]
  simp

/-- Everything in the detector adjacency of a node is a directed edge
target of that node. -/
theorem mem_adjList (txs : List Tx) (a b : String) (h : b ∈ adjList txs a) :
    dEdge txs a b := by
  rw [adjList, mem_dedupFS] at h
  rcases List.mem_filterMap.mp h with ⟨tx, htx, hif⟩
  by_cases hc : tx.from_id = a ∧ tx.from_id ≠ tx.to_id
  · rw [if_pos hc] at hif
    have hto : tx.to_id = b := by injection hif
    have hfrom : tx.from_id = a := hc.1
    exact ⟨tx, htx, hfrom, hto, fun hab => hc.2 (by rw [hfrom, hab, hto])⟩
  · rw [if_neg hc] at hif
    exact absurd hif (by simp)

theorem dChain_concat (txs : List Tx) (b : String) :
    ∀ (path : List String) (cur : String), dChain txs path →
      path.getLast? = some cur → dEdge txs cur b → dChain txs (path ++ [b])
  | [], cur, _, hl, _ => by simp at hl
  | [a], cur, _, hl, he => by
      simp only [List.getLast?_singleton, Option.some.injEq] at hl
      subst hl
      exact ⟨he, trivial⟩
  | a :: c :: rest, cur, hc, hl, he => by
      refine ⟨hc.1, ?_⟩
      exact dChain_concat txs b (c :: rest) cur hc.2 (by simpa using hl) he

/-- A recorded cycle: a chain from the start entity back to itself whose
length is between 3 and maxDepth + 1 nodes. -/
def GoodCycle (txs : List Tx) (eid : String) (maxD : Nat) (c : List String) : Prop :=
  (∃ l, c = eid :: (l ++ [eid]) ∧ dChain txs (eid :: (l ++ [eid]))) ∧
    3 ≤ c.length ∧ c.length ≤ maxD + 1

/-- The invariant carried by the DFS neighbour loop: every cycle in the
output state is either inherited from the input state or a good cycle. -/
theorem dfsNb_cycles (txs : List Tx) (eid : String) (maxD maxV : Nat)
    (rec_ : String → List String → Nat → DfsState → DfsState)
    (hrec : ∀ n2 path2 depth2 st2, path2.head? = some eid → dChain txs path2 →
      path2.getLast? = some n2 → path2.length = depth2 → 1 ≤ depth2 → depth2 ≤ maxD →
      ∀ c ∈ (rec_ n2 path2 depth2 st2).cycles,
        c ∈ st2.cycles ∨ GoodCycle txs eid maxD c) :
    ∀ (neighbors path : List String) (cur : String) (depth : Nat) (st : DfsState),
      path.head? = some eid → dChain txs path → path.getLast? = some cur →
      path.length = depth → 1 ≤ depth → depth ≤ maxD →
      (∀ n ∈ neighbors, dEdge txs cur n) →
      ∀ c ∈ (dfsNb eid maxD maxV rec_ neighbors path depth st).cycles,
        c ∈ st.cycles ∨ GoodCycle txs eid maxD c
  | [], path, cur, depth, st, _, _, _, _, _, _, _ => by
      intro c hc
      exact Or.inl hc
  | n :: rest, path, cur, depth, st, hhead, hchain, hlast, hlen, hd1, hdM, hnb => by
      intro c hc
      rw [dfsNb] at hc
      by_cases hbudget : st.visits + 1 ≥ maxV
      · rw [if_pos hbudget] at hc
        exact Or.inl hc
      · rw [if_neg hbudget] at hc
        by_cases hcyc : n = eid ∧ 2 ≤ depth
        · rw [if_pos hcyc] at hc
          have hgood : GoodCycle txs eid maxD (path ++ [n]) := by
            rcases hcyc with ⟨rfl, hd2⟩
            have hchain2 : dChain txs (path ++ [n]) :=
              dChain_concat txs n path cur hchain hlast (hnb n (List.mem_cons_self n rest))
            constructor
            · refine ⟨path.tail, ?_, ?_⟩
              · cases path with
                | nil => simp at hhead
                | cons a t =>
                    simp only [List.head?_cons, Option.some.injEq] at hhead
                    subst hhead
                    simp
              · cases path with
                | nil => simp at hhead
                | cons a t =>
                    simp only [List.head?_cons, Option.some.injEq] at hhead
                    subst hhead
                    simpa using hchain2
            · constructor
              · simp only [List.length_append, List.length_singleton, hlen]
                omega
              · simp only [List.length_append, List.length_singleton, hlen]
                omega
          have := dfsNb_cycles txs eid maxD maxV rec_ hrec rest path cur depth
            ⟨st.visits + 1, st.cycles ++ [path ++ [n]]⟩ hhead hchain hlast hlen hd1 hdM
            (fun m hm => hnb m (List.mem_cons_of_mem n hm)) c hc
          rcases this with hin | hg
          · rcases List.mem_append.mp hin with hin | hin
            · exact Or.inl hin
            · rcases List.mem_singleton.mp hin with rfl
              exact Or.inr hgood
          · exact Or.inr hg
        · rw [if_neg hcyc] at hc
          by_cases hrecurse : n ∉ path ∧ depth < maxD
          · rw [if_pos hrecurse] at hc
            have hsub : ∀ c2 ∈ (rec_ n (path ++ [n]) (depth + 1)
                { st with visits := st.visits + 1 }).cycles,
                c2 ∈ st.cycles ∨ GoodCycle txs eid maxD c2 := by
              intro c2 hc2
              have hh : (path ++ [n]).head? = some eid := by
                cases path with
                | nil => simp at hhead
                | cons a t => simpa using hhead
              have hch : dChain txs (path ++ [n]) :=
                dChain_concat txs n path cur hchain hlast (hnb n (List.mem_cons_self n rest))
              have hl2 : (path ++ [n]).getLast? = some n := by
                simp [List.getLast?_concat]
              have hlen2 : (path ++ [n]).length = depth + 1 := by
                simp [hlen]
              exact hrec n (path ++ [n]) (depth + 1) { st with visits := st.visits + 1 }
                hh hch hl2 hlen2 (by omega) (by omega) c2 hc2
            have := dfsNb_cycles txs eid maxD maxV rec_ hrec rest path cur depth
              (rec_ n (path ++ [n]) (depth + 1) { st with visits := st.visits + 1 })
              hhead hchain hlast hlen hd1 hdM
              (fun m hm => hnb m (List.mem_cons_of_mem n hm)) c hc
            rcases this with hin | hg
            · exact hsub c hin
            · exact Or.inr hg
          · rw [if_neg hrecurse] at hc
            exact dfsNb_cycles txs eid maxD maxV rec_ hrec rest path cur depth
              { st with visits := st.visits + 1 } hhead hchain hlast hlen hd1 hdM
              (fun m hm => hnb m (List.mem_cons_of_mem n hm)) c hc

/-- The DFS only records good cycles (on top of the cycles already in
its input state). -/
theorem dfs_cycles (txs : List Tx) (eid : String) (maxD maxV : Nat) :
    ∀ (gas : Nat) (current : String) (path : List String) (depth : Nat) (st : DfsState),
      path.head? = some eid → dChain txs path → path.getLast? = some current →
      path.length = depth → 1 ≤ depth → depth ≤ maxD →
      ∀ c ∈ (dfs (adjList txs) eid maxD maxV gas current path depth st).cycles,
        c ∈ st.cycles ∨ GoodCycle txs eid maxD c
  | 0, current, path, depth, st, _, _, _, _, _, _ => fun c hc => Or.inl hc
  | gas + 1, current, path, depth, st, hhead, hchain, hlast, hlen, hd1, hdM => by
      intro c hc
      rw [dfs] at hc
      exact dfsNb_cycles txs eid maxD maxV (dfs (adjList txs) eid maxD maxV gas)
        (fun n2 path2 depth2 st2 hh hch hl hlen2 h1 h2 =>
          dfs_cycles txs eid maxD maxV gas n2 path2 depth2 st2 hh hch hl hlen2 h1 h2)
        (adjList txs current) path current depth st hhead hchain hlast hlen hd1 hdM
        (fun m hm => mem_adjList txs current m hm) c hc

theorem foldl_min_mem : ∀ (cs : List (List String)) (a : Nat),
    cs.foldl (fun m x => min m x.length) a ∈ a :: cs.map List.length
  | [], a => by simp
  | c :: cs, a => by
      simp only [List.foldl_cons]
      have h := foldl_min_mem cs (min a c.length)
      rcases List.mem_cons.mp h with h1 | h1
      · rcases min_choice a c.length with h2 | h2
        · rw [h1, h2]
          simp
        · rw [h1, h2]
          simp
      · simp [List.mem_cons, h1]

theorem minCycleLen_mem (cycles : List (List String)) (h : cycles ≠ []) :
    minCycleLen cycles ∈ cycles.map List.length := by
  cases cycles with
  | nil => exact absurd rfl h
  | cons c cs =>
      rw [minCycleLen]
      have := foldl_min_mem cs c.length
      simpa using this

/-- Every cycle recorded by the detector run is a good cycle. -/
theorem circState_cycles_good (txs : List Tx) (e : String) (maxD maxV : Nat)
    (h1 : 1 ≤ maxD) :
    ∀ c ∈ (circState e txs maxD maxV).cycles, GoodCycle txs e maxD c := by
  intro c hc
  rw [circState] at hc
  by_cases hv : 0 ≥ maxV
  · rw [if_pos hv] at hc
    simp at hc
  · rw [if_neg hv] at hc
    have := dfs_cycles txs e maxD maxV (maxD + 1) e [e] 1 ⟨0, []⟩
      (by simp) trivial (by simp) (by simp) (le_refl 1) h1 c hc
    rcases this with h | h
    · simp at h
    · exact h

/-- On an acyclic bucket graph the detector finds nothing: score 0 and
empty evidence, for every start node. -/
theorem circular_flow_acyclic (txs : List Tx) (e : String) (maxD maxV : Nat)
    (h1 : 1 ≤ maxD) (hacy : Acyclic txs) :
    circular_flow_detector e txs maxD maxV = ⟨0, none⟩ := by
  have hcyc : (circState e txs maxD maxV).cycles = [] := by
    cases hc : (circState e txs maxD maxV).cycles with
    | nil => rfl
    | cons c cs =>
        have hg := circState_cycles_good txs e maxD maxV h1 c (by rw [hc]; simp)
        rcases hg.1 with ⟨l, _, hchain⟩
        exact absurd hchain (hacy e l)
  rw [circular_flow_detector]
  simp [hcyc]

/-- Whenever the detector reports anything, the shortest cycle length is
3, 4 or 5 nodes (for the default depth bound 4) and the score is the
matching value 1.0, 0.7 or 0.4. -/
theorem circular_flow_score_cases (txs : List Tx) (e : String)
    (h : (circular_flow_detector e txs 4 500).score ≠ 0) :
    ∃ ev, (circular_flow_detector e txs 4 500).evidence = some ev ∧
      ((ev.shortest_cycle_length = 3 ∧ (circular_flow_detector e txs 4 500).score = 1) ∨
       (ev.shortest_cycle_length = 4 ∧ (circular_flow_detector e txs 4 500).score = 7/10) ∨
       (ev.shortest_cycle_length = 5 ∧ (circular_flow_detector e txs 4 500).score = 2/5)) := by
  by_cases hcyc : (circState e txs 4 500).cycles = []
  · exfalso
    apply h
    rw [circular_flow_detector]
    simp [hcyc]
  · have hmem := minCycleLen_mem _ hcyc
    rcases List.mem_map.mp hmem with ⟨c, hcmem, hclen⟩
    have hgood := circState_cycles_good txs e 4 500 (by omega) c hcmem
    have hbounds : 3 ≤ minCycleLen (circState e txs 4 500).cycles ∧
        minCycleLen (circState e txs 4 500).cycles ≤ 5 := by
      rw [← hclen]
      exact ⟨hgood.2.1, hgood.2.2⟩
    have hdet : circular_flow_detector e txs 4 500 =
        ⟨clamp01 (1 - ((minCycleLen (circState e txs 4 500).cycles : ℚ) - 3) * (3/10)),
         some ⟨(circState e txs 4 500).cycles.length,
               minCycleLen (circState e txs 4 500).cycles,
               (ssort (fun a b => decide (a ≤ b))
                 (dedupFS ((circState e txs 4 500).cycles.flatten.filter
                   (fun x => decide (x ≠ e))))).take 10⟩⟩ := by
      rw [circular_flow_detector]
      simp [hcyc]
    refine ⟨_, by rw [hdet], ?_⟩
    have h3 : minCycleLen (circState e txs 4 500).cycles = 3 ∨
        minCycleLen (circState e txs 4 500).cycles = 4 ∨
        minCycleLen (circState e txs 4 500).cycles = 5 := by omega
    rcases h3 with h3 | h3 | h3
    · refine Or.inl ⟨by simp [h3], ?_⟩
      rw [hdet, h3]
      norm_num [clamp01]
    · refine Or.inr (Or.inl ⟨by simp [h3], ?_⟩)
      rw [hdet, h3]
      norm_num [clamp01]
    · refine Or.inr (Or.inr ⟨by simp [h3], ?_⟩)
      rw [hdet, h3]
      norm_num [clamp01]

-- ───────────────────────── Velocity lemmas ─────────────────────────

theorem getD_mem {α : Type} (l : List α) (i : Nat) (d : α) (h : i < l.length) :
    l.getD i d ∈ l := by
  rw [List.getD_eq_getElem?_getD, List.getElem?_eq_getElem h]
  exact List.getElem_mem h

theorem natSort_pairwise (l : List Nat) :
    (ssort (fun a b => decide (a ≤ b)) l).Pairwise (fun a b => a ≤ b) := by
  have h := pairwise_ssort (fun (a b : Nat) => decide (a ≤ b))
    (fun a b => by
      rcases Nat.le_total a b with h | h
      · exact Or.inl (by simpa using h)
      · exact Or.inr (by simpa using h))
    (fun a b c hab hbc => by
      simp only [decide_eq_true_eq] at *
      omega) l
  exact h.imp (by simp)

/-- The population stats are values of the total_tx multiset, and the
p95 value dominates the p50 value (the p95 sorted index is not below the
p50 index). -/
theorem population_stats_spec (allF : List (String × Feature)) (h : allF ≠ []) :
    (population_stats allF).1 ∈ allF.map (fun p => p.2.total_tx) ∧
    (population_stats allF).2 ∈ allF.map (fun p => p.2.total_tx) ∧
    (population_stats allF).1 ≤ (population_stats allF).2 := by
  have hn : 0 < (allF.map (fun p => p.2.total_tx)).length := by
    simpa using List.length_pos.mpr (by simpa using h)
  set totals := allF.map (fun p => p.2.total_tx) with htotals
  set sorted := ssort (fun a b => decide (a ≤ b)) totals with hsorted
  have hlen : sorted.length = totals.length := length_ssort _ _
  have hn2 : 0 < sorted.length := by omega
  have hi50 : sorted.length / 2 < sorted.length := Nat.div_lt_self hn2 (by omega)
  have hi95 : sorted.length * 95 / 100 < sorted.length := by
    rw [Nat.div_lt_iff_lt_mul (by omega)]
    omega
  have hle : sorted.length / 2 ≤ sorted.length * 95 / 100 := by
    have h1 : sorted.length / 2 = sorted.length * 50 / 100 := by
      rw [Nat.mul_comm sorted.length 50]
      rw [(by norm_num : (100 : Nat) = 50 * 2), Nat.mul_div_mul_left _ _ (by norm_num)]
    rw [h1]
    exact Nat.div_le_div_right (by omega)
  have hp : population_stats allF =
      (sorted.getD (sorted.length / 2) 0, sorted.getD (sorted.length * 95 / 100) 0) := by
    rw [population_stats]
  refine ⟨?_, ?_, ?_⟩
  · rw [hp]
    have := getD_mem sorted (sorted.length / 2) 0 hi50
    rw [← mem_ssort (fun a b => decide (a ≤ b)) totals]
    exact this
  · rw [hp]
    have := getD_mem sorted (sorted.length * 95 / 100) 0 hi95
    rw [← mem_ssort (fun a b => decide (a ≤ b)) totals]
    exact this
  · rw [hp]
    rcases Nat.eq_or_lt_of_le hle with heq | hlt
    · rw [heq]
    · have hpw := natSort_pairwise totals
      rw [← hsorted] at hpw
      have := List.pairwise_iff_getElem.mp hpw (sorted.length / 2)
        (sorted.length * 95 / 100) hi50 hi95 hlt
      simpa [List.getD_eq_getElem?_getD, List.getElem?_eq_getElem, hi50, hi95] using this

/-- The velocity detector on a nonempty population: the score is 0 in
the degenerate branch p95 <= p50 and the normalised clamped ratio
otherwise, and the evidence always carries the inputs. -/
theorem velocity_detector_eq (f : Feature) (allF : List (String × Feature))
    (h : allF ≠ []) :
    velocity_detector f allF =
      ⟨if (population_stats allF).2 ≤ (population_stats allF).1 then 0
        else clamp01 (((f.total_tx : ℚ) - ((population_stats allF).1 : ℚ)) /
          ((max (((population_stats allF).2 : Int) - ((population_stats allF).1 : Int)) 1 :
            Int) : ℚ)),
       some ⟨f.total_tx, f.tx_per_minute, (population_stats allF).1,
         (population_stats allF).2⟩⟩ := by
  rw [velocity_detector]
  rw [if_neg (by simpa using h)]

/-- When every entity has the same total_tx, p95 = p50 and every score
is 0. -/
theorem velocity_uniform (allF : List (String × Feature)) (v : Nat) (h : allF ≠ [])
    (hu : ∀ p ∈ allF, p.2.total_tx = v) :
    (population_stats allF).2 ≤ (population_stats allF).1 ∧
      ∀ f : Feature, (velocity_detector f allF).score = 0 := by
  have hspec := population_stats_spec allF h
  have hv : ∀ x ∈ allF.map (fun p => p.2.total_tx), x = v := by
    intro x hx
    rcases List.mem_map.mp hx with ⟨p, hp, rfl⟩
    exact hu p hp
  have h1 : (population_stats allF).1 = v := hv _ hspec.1
  have h2 : (population_stats allF).2 = v := hv _ hspec.2.1
  refine ⟨by rw [h1, h2], fun f => ?_⟩
  rw [velocity_detector_eq f allF h, if_pos (by rw [h1, h2])]

/-- An entity exactly at the population median scores 0. -/
theorem velocity_at_median (f : Feature) (allF : List (String × Feature))
    (h : allF ≠ []) (hmed : f.total_tx = (population_stats allF).1) :
    (velocity_detector f allF).score = 0 := by
  rw [velocity_detector_eq f allF h]
  by_cases hdeg : (population_stats allF).2 ≤ (population_stats allF).1
  · rw [if_pos hdeg]
  · rw [if_neg hdeg]
    simp only [hmed, sub_self, zero_div]
    norm_num [clamp01]

/-- An entity at or above the 95th percentile scores 1 when the
population is not degenerate. -/
theorem velocity_at_p95 (f : Feature) (allF : List (String × Feature))
    (h : allF ≠ []) (hdeg : (population_stats allF).1 < (population_stats allF).2)
    (htop : (population_stats allF).2 ≤ f.total_tx) :
    (velocity_detector f allF).score = 1 := by
  rw [velocity_detector_eq f allF h, if_neg (by omega)]
  set p50 := (population_stats allF).1
  set p95 := (population_stats allF).2
  have hmax : max ((p95 : Int) - (p50 : Int)) 1 = (p95 : Int) - (p50 : Int) := by
    rw [max_eq_left]
    omega
  rw [hmax]
  have hden : (0 : ℚ) < (((p95 : Int) - (p50 : Int) : Int) : ℚ) := by
    push_cast
    have : (p50 : ℚ) < (p95 : ℚ) := by exact_mod_cast hdeg
    linarith
  have hone : (1 : ℚ) ≤ ((f.total_tx : ℚ) - (p50 : ℚ)) /
      ((((p95 : Int) - (p50 : Int) : Int)) : ℚ) := by
    rw [le_div_iff₀ hden]
    push_cast
    have h1 : (p95 : ℚ) ≤ (f.total_tx : ℚ) := by exact_mod_cast htop
    linarith
  have hc : clamp01 (((f.total_tx : ℚ) - (p50 : ℚ)) /
      ((((p95 : Int) - (p50 : Int) : Int)) : ℚ)) = 1 := by
    rw [clamp01, min_eq_left hone, max_eq_right (by norm_num : (0 : ℚ) ≤ 1)]
  simpa using hc

-- ───────────────────────── Reasons lemmas ─────────────────────────

theorem candReasons_length (vel : DetRes VelEv) (struct : DetRes StructEv)
    (circ : DetRes CircEv) : (candReasons vel struct circ).length ≤ 3 := by
  rw [candReasons]
  by_cases h1 : (0.05 : ℚ) < vel.score <;>
    by_cases h2 : (0.05 : ℚ) < struct.score <;>
      by_cases h3 : (0.05 : ℚ) < circ.score <;>
        simp [h1, h2, h3]

/-- The take-3 truncation never drops a reason: there are at most three
candidates. -/
theorem buildReasons_eq_sort (vel : DetRes VelEv) (struct : DetRes StructEv)
    (circ : DetRes CircEv) :
    buildReasons vel struct circ = sortKeyDesc Reason.weight (candReasons vel struct circ) := by
  rw [buildReasons]
  apply List.take_of_length_le
  rw [sortKeyDesc, length_ssort]
  exact candReasons_length vel struct circ

theorem buildReasons_mem (vel : DetRes VelEv) (struct : DetRes StructEv)
    (circ : DetRes CircEv) (r : Reason) :
    r ∈ buildReasons vel struct circ ↔ r ∈ candReasons vel struct circ := by
  rw [buildReasons_eq_sort, sortKeyDesc, mem_ssort]

theorem buildReasons_length (vel : DetRes VelEv) (struct : DetRes StructEv)
    (circ : DetRes CircEv) : (buildReasons vel struct circ).length ≤ 3 := by
  rw [buildReasons_eq_sort, sortKeyDesc, length_ssort]
  exact candReasons_length vel struct circ

theorem buildReasons_sorted (vel : DetRes VelEv) (struct : DetRes StructEv)
    (circ : DetRes CircEv) :
    (buildReasons vel struct circ).Pairwise (fun a b => b.weight ≤ a.weight) := by
  rw [buildReasons_eq_sort]
  exact pairwise_sortKeyDesc Reason.weight (candReasons vel struct circ)

theorem buildReasons_velocity (vel : DetRes VelEv) (struct : DetRes StructEv)
    (circ : DetRes CircEv) :
    ((∃ r ∈ buildReasons vel struct circ, r.detector = detVelocity) ↔ 0.05 < vel.score) ∧
    (∀ r ∈ buildReasons vel struct circ, r.detector = detVelocity →
      r.weight = round4 (W_VELOCITY * vel.score)) := by
  constructor
  · constructor
    · rintro ⟨r, hr, hd⟩
      rw [buildReasons_mem] at hr
      rw [candReasons] at hr
      by_cases h1 : (0.05 : ℚ) < vel.score
      · exact h1
      · exfalso
        simp only [if_neg h1, List.nil_append, List.mem_append] at hr
        by_cases h : (0.05 : ℚ) < struct.score <;>
          by_cases h' : (0.05 : ℚ) < circ.score <;>
            simp only [if_pos, if_neg, h, h', List.mem_singleton, List.not_mem_nil,
              if_true, if_false, or_false, false_or] at hr <;>
            rcases hr with rfl | rfl <;>
              simp [detVelocity, detStructuring, detCircular] at hd
    · intro h1
      refine ⟨Reason.mk detVelocity (round4 (W_VELOCITY * vel.score)), ?_, rfl⟩
      rw [buildReasons_mem, candReasons, if_pos h1]
      simp
  · intro r hr hd
    rw [buildReasons_mem, candReasons] at hr
    simp only [List.mem_append] at hr
    rcases hr with (hr | hr) | hr
    · by_cases h1 : (0.05 : ℚ) < vel.score
      · rw [if_pos h1] at hr
        rcases List.mem_singleton.mp hr with rfl
        rfl
      · rw [if_neg h1] at hr
        simp at hr
    · by_cases h2 : (0.05 : ℚ) < struct.score
      · rw [if_pos h2] at hr
        rcases List.mem_singleton.mp hr with rfl
        simp [detVelocity, detStructuring] at hd
      · rw [if_neg h2] at hr
        simp at hr
    · by_cases h3 : (0.05 : ℚ) < circ.score
      · rw [if_pos h3] at hr
        rcases List.mem_singleton.mp hr with rfl
        simp [detVelocity, detCircular] at hd
      · rw [if_neg h3] at hr
        simp at hr

theorem buildReasons_structuring (vel : DetRes VelEv) (struct : DetRes StructEv)
    (circ : DetRes CircEv) :
    ((∃ r ∈ buildReasons vel struct circ, r.detector = detStructuring) ↔
      0.05 < struct.score) ∧
    (∀ r ∈ buildReasons vel struct circ, r.detector = detStructuring →
      r.weight = round4 (W_STRUCTURING * struct.score)) := by
  constructor
  · constructor
    · rintro ⟨r, hr, hd⟩
      rw [buildReasons_mem] at hr
      rw [candReasons] at hr
      by_cases h2 : (0.05 : ℚ) < struct.score
      · exact h2
      · exfalso
        simp only [if_neg h2, List.mem_append, List.not_mem_nil, or_false] at hr
        by_cases h : (0.05 : ℚ) < vel.score <;>
          by_cases h' : (0.05 : ℚ) < circ.score <;>
            simp only [if_pos, if_neg, h, h', List.mem_singleton, List.not_mem_nil,
              List.mem_append, if_true, if_false, or_false, false_or] at hr <;>
            rcases hr with rfl | rfl <;>
              simp [detVelocity, detStructuring, detCircular] at hd
    · intro h2
      refine ⟨Reason.mk detStructuring (round4 (W_STRUCTURING * struct.score)), ?_, rfl⟩
      rw [buildReasons_mem, candReasons, if_pos h2]
      simp
  · intro r hr hd
    rw [buildReasons_mem, candReasons] at hr
    simp only [List.mem_append] at hr
    rcases hr with (hr | hr) | hr
    · by_cases h1 : (0.05 : ℚ) < vel.score
      · rw [if_pos h1] at hr
        rcases List.mem_singleton.mp hr with rfl
        simp [detVelocity, detStructuring] at hd
      · rw [if_neg h1] at hr
        simp at hr
    · by_cases h2 : (0.05 : ℚ) < struct.score
      · rw [if_pos h2] at hr
        rcases List.mem_singleton.mp hr with rfl
        rfl
      · rw [if_neg h2] at hr
        simp at hr
    · by_cases h3 : (0.05 : ℚ) < circ.score
      · rw [if_pos h3] at hr
        rcases List.mem_singleton.mp hr with rfl
        simp [detStructuring, detCircular] at hd
      · rw [if_neg h3] at hr
        simp at hr

theorem buildReasons_circular (vel : DetRes VelEv) (struct : DetRes StructEv)
    (circ : DetRes CircEv) :
    ((∃ r ∈ buildReasons vel struct circ, r.detector = detCircular) ↔
      0.05 < circ.score) ∧
    (∀ r ∈ buildReasons vel struct circ, r.detector = detCircular →
      r.weight = round4 (W_CIRCULAR * circ.score)) := by
  constructor
  · constructor
    · rintro ⟨r, hr, hd⟩
      rw [buildReasons_mem] at hr
      rw [candReasons] at hr
      by_cases h3 : (0.05 : ℚ) < circ.score
      · exact h3
      · exfalso
        simp only [if_neg h3, List.mem_append, List.not_mem_nil, or_false] at hr
        by_cases h : (0.05 : ℚ) < vel.score <;>
          by_cases h' : (0.05 : ℚ) < struct.score <;>
            simp only [if_pos, if_neg, h, h', List.mem_singleton, List.not_mem_nil,
              List.mem_append, if_true, if_false, or_false, false_or] at hr <;>
            rcases hr with rfl | rfl <;>
              simp [detVelocity, detStructuring, detCircular] at hd
    · intro h3
      refine ⟨Reason.mk detCircular (round4 (W_CIRCULAR * circ.score)), ?_, rfl⟩
      rw [buildReasons_mem, candReasons, if_pos h3]
      simp
  · intro r hr hd
    rw [buildReasons_mem, candReasons] at hr
    simp only [List.mem_append] at hr
    rcases hr with (hr | hr) | hr
    · by_cases h1 : (0.05 : ℚ) < vel.score
      · rw [if_pos h1] at hr
        rcases List.mem_singleton.mp hr with rfl
        simp [detVelocity, detCircular] at hd
      · rw [if_neg h1] at hr
        simp at hr
    · by_cases h2 : (0.05 : ℚ) < struct.score
      · rw [if_pos h2] at hr
        rcases List.mem_singleton.mp hr with rfl
        simp [detStructuring, detCircular] at hd
      · rw [if_neg h2] at hr
        simp at hr
    · by_cases h3 : (0.05 : ℚ) < circ.score
      · rw [if_pos h3] at hr
        rcases List.mem_singleton.mp hr with rfl
        rfl
      · rw [if_neg h3] at hr
        simp at hr

-- ────────────────── Fusion lookup and score bounds ──────────────────

theorem compute_risk_lookup (txs : List Tx) (bs : Nat) (e : String) :
    alookup e (compute_risk_for_bucket txs bs) =
      (alookup e (extract_features txs bs)).map (entityRisk txs bs e) := by
  rw [compute_risk_for_bucket]
  by_cases h : txs = []
  · subst h
    simp [extract_features, extractAcc, alookup]
  · rw [if_neg h]
    exact alookup_map_values (entityRisk txs bs) e (extract_features txs bs)

theorem clamp01_nonneg (q : ℚ) : 0 ≤ clamp01 q := le_max_left 0 _

theorem clamp01_le_one (q : ℚ) : clamp01 q ≤ 1 :=
  max_le (by norm_num) (min_le_left 1 q)

theorem round4_unit (q : ℚ) (h0 : 0 ≤ q) (h1 : q ≤ 1) :
    0 ≤ round4 q ∧ round4 q ≤ 1 := by
  rw [round4]
  constructor
  · apply div_nonneg _ (by norm_num)
    have : (0 : ℤ) ≤ ⌊q * 10000 + 1/2⌋ := by
      apply Int.floor_nonneg.mpr
      nlinarith
    exact_mod_cast this
  · rw [div_le_one (by norm_num)]
    have hf : ⌊q * 10000 + 1/2⌋ ≤ (10000 : ℤ) := by
      have hle : q * 10000 + 1/2 ≤ 10000 + 1/2 := by nlinarith
      have hmono := Int.floor_mono hle
      have heq : ⌊(10000 : ℚ) + 1/2⌋ = 10000 := by
        rw [Int.floor_eq_iff]
        norm_num
      rw [heq] at hmono
      exact hmono
    exact_mod_cast hf

-- ───────────────────────── Cluster lemmas ─────────────────────────

theorem mem_clusterAdj (txs : List Tx) (hr : List String) (x y : String)
    (h : y ∈ clusterAdj txs hr x) :
    ∃ tx ∈ txs, tx.from_id ≠ tx.to_id ∧ tx.from_id ∈ hr ∧ tx.to_id ∈ hr ∧
      ((tx.from_id = x ∧ tx.to_id = y) ∨ (tx.to_id = x ∧ tx.from_id = y)) := by
  rw [clusterAdj, mem_dedupFS] at h
  rcases List.mem_filterMap.mp h with ⟨tx, htx, hif⟩
  by_cases hok : tx.from_id ≠ tx.to_id ∧ tx.from_id ∈ hr ∧ tx.to_id ∈ hr
  · rw [if_pos hok] at hif
    refine ⟨tx, htx, hok.1, hok.2.1, hok.2.2, ?_⟩
    by_cases hfx : tx.from_id = x
    · rw [if_pos hfx] at hif
      exact Or.inl ⟨hfx, by injection hif⟩
    · rw [if_neg hfx] at hif
      by_cases htxx : tx.to_id = x
      · rw [if_pos htxx] at hif
        exact Or.inr ⟨htxx, by injection hif⟩
      · rw [if_neg htxx] at hif
        exact absurd hif (by simp)
  · rw [if_neg hok] at hif
    exact absurd hif (by simp)

/-- Nothing the BFS queue fold enqueues lies outside the old queue and
the neighbour list. -/
theorem bfs_fold_queue_sub (visited0 : List String) (x : String) :
    ∀ (ns : List String) (qv : List String × List String),
      x ∈ ((ns.foldl (fun qv nb => if nb ∈ qv.2 then qv else (qv.1 ++ [nb], qv.2 ++ [nb]))
        qv)).1 → x ∈ qv.1 ∨ x ∈ ns
  | [], qv => fun h => Or.inl h
  | nb :: rest, qv => by
      intro h
      simp only [List.foldl_cons] at h
      by_cases hv : nb ∈ qv.2
      · rw [if_pos hv] at h
        rcases bfs_fold_queue_sub visited0 x rest qv h with h1 | h1
        · exact Or.inl h1
        · exact Or.inr (List.mem_cons_of_mem nb h1)
      · rw [if_neg hv] at h
        rcases bfs_fold_queue_sub visited0 x rest (qv.1 ++ [nb], qv.2 ++ [nb]) h with h1 | h1
        · rcases List.mem_append.mp h1 with h3 | h3
          · exact Or.inl h3
          · rcases List.mem_singleton.mp h3 with rfl
            exact Or.inr (List.mem_cons_self _ rest)
        · exact Or.inr (List.mem_cons_of_mem nb h1)

/-- If the target entity is adjacent to nobody, is not queued and is not
yet in the component, the BFS never reaches it. -/
theorem bfs_not_reached (adj : String → List String) (e : String)
    (hadj : ∀ x, e ∉ adj x) :
    ∀ (fuel : Nat) (queue visited component : List String),
      e ∉ queue → e ∉ component → e ∉ (bfs adj fuel queue visited component).1
  | 0, queue, visited, component => fun _ hc => hc
  | fuel + 1, [], visited, component => fun _ hc => hc
  | fuel + 1, current :: queue, visited, component => by
      intro hq hc
      rw [bfs]
      apply bfs_not_reached adj e hadj fuel
      · intro hmem
        rcases bfs_fold_queue_sub visited e (adj current) (queue, visited) hmem with h1 | h1
        · exact hq (List.mem_cons_of_mem current h1)
        · exact hadj current h1
      · intro hmem
        rcases List.mem_append.mp hmem with h1 | h1
        · exact hc h1
        · rcases List.mem_singleton.mp h1 with rfl
          exact hq (List.mem_cons_self _ _)

/-- A BFS started at an isolated node returns the singleton component. -/
theorem bfs_isolated (adj : String → List String) (e : String) (hadje : adj e = [])
    (fuel : Nat) (visited : List String) :
    (bfs adj (fuel + 1) [e] visited []).1 = [e] := by
  rw [bfs, hadje]
  simp only [List.foldl_nil, List.nil_append]
  cases fuel with
  | zero => rfl
  | succ n => rfl

/-- No iteration of the cluster loop ever puts an isolated entity into a
recorded cluster. -/
theorem clusterStep_fold_isolated (adj : String → List String) (riskOf : String → ℚ)
    (f : Nat) (e : String) (hadj : ∀ x, e ∉ adj x) (hadje : adj e = []) :
    ∀ (l : List String) (acc : List String × List Cluster),
      (∀ cl ∈ acc.2, e ∉ cl.entity_ids) →
      ∀ cl ∈ (l.foldl (clusterStep adj riskOf (f + 1)) acc).2, e ∉ cl.entity_ids
  | [], acc => fun hinv => hinv
  | s :: rest, acc => by
      intro hinv
      simp only [List.foldl_cons]
      apply clusterStep_fold_isolated adj riskOf f e hadj hadje rest
      rw [clusterStep]
      by_cases hvis : s ∈ acc.1
      · rw [if_pos hvis]
        exact hinv
      · rw [if_neg hvis]
        by_cases hse : s = e
        · subst hse
          have hr1 : (bfs adj (f + 1) [s] (acc.1 ++ [s]) []).1 = [s] :=
            bfs_isolated adj s hadje f (acc.1 ++ [s])
          rw [if_neg (by rw [hr1]; simp)]
          exact hinv
        · have hr1 : e ∉ (bfs adj (f + 1) [s] (acc.1 ++ [s]) []).1 := by
            apply bfs_not_reached adj e hadj
            · intro hmem
              rcases List.mem_singleton.mp hmem with rfl
              exact hse rfl
            · simp
          by_cases hlen : 2 ≤ (bfs adj (f + 1) [s] (acc.1 ++ [s]) []).1.length
          · rw [if_pos hlen]
            intro cl hcl
            rcases List.mem_append.mp hcl with h1 | h1
            · exact hinv cl h1
            · rcases List.mem_singleton.mp h1 with rfl
              simp only []
              rw [mem_ssort]
              exact hr1
          · rw [if_neg hlen]
            exact hinv

/-- A high-risk entity with no high-risk neighbour is in no cluster. -/
theorem isolated_not_in_clusters (risk_data : List (String × RiskRecord))
    (txs : List Tx) (threshold : ℚ) (e : String)
    (he : e ∈ high_risk_ids risk_data threshold)
    (hnb : ∀ tx ∈ txs, ¬(tx.from_id ≠ tx.to_id ∧
      tx.from_id ∈ high_risk_ids risk_data threshold ∧
      tx.to_id ∈ high_risk_ids risk_data threshold ∧
      (tx.from_id = e ∨ tx.to_id = e))) :
    ∀ cl ∈ detect_clusters risk_data txs threshold, e ∉ cl.entity_ids := by
  intro cl hcl
  set hr := high_risk_ids risk_data threshold with hhr
  have hne : hr ≠ [] := List.ne_nil_of_mem he
  have hadj : ∀ x, e ∉ clusterAdj txs hr x := by
    intro x hmem
    rcases mem_clusterAdj txs hr x e hmem with ⟨tx, htx, hne2, hf, ht, hcase⟩
    apply hnb tx htx
    rcases hcase with ⟨h1, h2⟩ | ⟨h1, h2⟩
    · exact ⟨hne2, hf, ht, Or.inr h2⟩
    · exact ⟨hne2, hf, ht, Or.inl h2⟩
  have hadje : clusterAdj txs hr e = [] := by
    rw [List.eq_nil_iff_forall_not_mem]
    intro y hmem
    rcases mem_clusterAdj txs hr e y hmem with ⟨tx, htx, hne2, hf, ht, hcase⟩
    apply hnb tx htx
    rcases hcase with ⟨h1, h2⟩ | ⟨h1, h2⟩
    · exact ⟨hne2, hf, ht, Or.inl h1⟩
    · exact ⟨hne2, hf, ht, Or.inr h1⟩
  have hlen : 1 ≤ hr.length := List.length_pos.mpr hne
  rw [detect_clusters] at hcl
  rw [← hhr] at hcl
  rw [if_neg hne] at hcl
  obtain ⟨f, hf⟩ : ∃ f, hr.length = f + 1 := ⟨hr.length - 1, by omega⟩
  rw [hf] at hcl
  exact clusterStep_fold_isolated (clusterAdj txs hr)
    (fun eid => ((alookup eid risk_data).getD RiskRecord.zero).risk_score) f e hadj hadje
    (ssort (fun a b => decide (a ≤ b)) hr) ([], []) (by simp) cl hcl

-- ──────────── Concrete scenario: a structuring burst (C5) ────────────
-- Ten transactions from E to C, each just under the 10000 threshold,
-- with distinct amounts; E has no other activity, so structuring is its
-- only risk signal (velocity is degenerate, the graph is acyclic).

def burst : List Tx :=
  [⟨"s0", "E", "C", 9050, 0⟩, ⟨"s1", "E", "C", 9150, 1000⟩, ⟨"s2", "E", "C", 9250, 2000⟩,
   ⟨"s3", "E", "C", 9350, 3000⟩, ⟨"s4", "E", "C", 9450, 4000⟩, ⟨"s5", "E", "C", 9550, 5000⟩,
   ⟨"s6", "E", "C", 9650, 6000⟩, ⟨"s7", "E", "C", 9750, 7000⟩, ⟨"s8", "E", "C", 9850, 8000⟩,
   ⟨"s9", "E", "C", 9950, 9000⟩]

def burstAmounts : List ℚ :=
  [9050, 9150, 9250, 9350, 9450, 9550, 9650, 9750, 9850, 9950]

def burstRawE : RawFeature :=
  ⟨10, 0, 95000, 0, ["C"], burstAmounts,
   [0, 1000, 2000, 3000, 4000, 5000, 6000, 7000, 8000, 9000]⟩

def burstRawC : RawFeature := ⟨0, 10, 0, 95000, ["E"], [], []⟩

theorem burst_acc : extractAcc burst = [("E", burstRawE), ("C", burstRawC)] := by
  simp [extractAcc, stepTx, touchA, outUpd, inUpd, RawFeature.empty, burst, burstRawE,
    burstRawC, burstAmounts]
  norm_num

def burstFeatE : Feature := ⟨10, 0, 95000, 0, 10, 1, 667/10000, burstAmounts⟩

def burstFeatC : Feature := ⟨0, 10, 0, 95000, 10, 1, 0, []⟩

theorem burst_feat : extract_features burst 86400 =
    [("E", burstFeatE), ("C", burstFeatC)] := by
  rw [extract_features, burst_acc]
  simp [finalize, burstRawE, burstRawC, burstFeatE, burstFeatC, listMaxI, listMinI,
    round2, round4, burstAmounts]
  norm_num [Int.floor_eq_iff]

theorem burst_velE : velocity_detector burstFeatE [("E", burstFeatE), ("C", burstFeatC)] =
    ⟨0, some ⟨10, 667/10000, 10, 10⟩⟩ := by
  simp [velocity_detector, population_stats, ssort, insortBy, burstFeatE, burstFeatC]

theorem burst_velC : velocity_detector burstFeatC [("E", burstFeatE), ("C", burstFeatC)] =
    ⟨0, some ⟨10, 0, 10, 10⟩⟩ := by
  simp [velocity_detector, population_stats, ssort, insortBy, burstFeatE, burstFeatC]

theorem burst_structE : structuring_detector burstFeatE = ⟨1, some ⟨10, 10000, 1000⟩⟩ := by
  simp [structuring_detector, STRUCTURING_LOWER, STRUCTURING_THRESHOLD, STRUCTURING_DELTA,
    clamp01, burstFeatE, burstAmounts]
  norm_num

theorem burst_structC : structuring_detector burstFeatC = ⟨0, none⟩ := by
  simp [structuring_detector, burstFeatC]

theorem burst_circE : circular_flow_detector ("E" : String) burst 4 500 = ⟨0, none⟩ := by
  decide

theorem burst_circC : circular_flow_detector ("C" : String) burst 4 500 = ⟨0, none⟩ := by
  decide

def burstIds : List String :=
  ["s0", "s1", "s2", "s3", "s4", "s5", "s6", "s7", "s8", "s9"]

def burstRecE : RiskRecord :=
  ⟨3/10, [⟨"structuring", 3/10⟩], ⟨some ⟨10, 10000, 1000⟩, none, none, burstIds⟩⟩

def burstRecC : RiskRecord := ⟨0, [], Evidence.empty⟩

theorem burst_recE : entityRisk burst 86400 ("E" : String) burstFeatE = burstRecE := by
  simp only [entityRisk, burst_feat, burst_velE, burst_structE, burst_circE]
  simp [buildReasons, candReasons, sortKeyDesc, ssort, insortBy, buildEvidence,
    W_VELOCITY, W_STRUCTURING, W_CIRCULAR, detVelocity, detStructuring, detCircular,
    round4, clamp01, burstRecE, burstIds, burst, STRUCTURING_LOWER, STRUCTURING_THRESHOLD,
    Evidence.empty]
  norm_num [Int.floor_eq_iff]
  simp [insortBy]

theorem burst_recC : entityRisk burst 86400 ("C" : String) burstFeatC = burstRecC := by
  simp only [entityRisk, burst_feat, burst_velC, burst_structC, burst_circC]
  simp [buildReasons, candReasons, sortKeyDesc, ssort, insortBy, buildEvidence,
    W_VELOCITY, W_STRUCTURING, W_CIRCULAR, detVelocity, detStructuring, detCircular,
    round4, clamp01, burstRecC, burst, STRUCTURING_LOWER, STRUCTURING_THRESHOLD,
    Evidence.empty]
  norm_num [Int.floor_eq_iff]

theorem burst_risk : compute_risk_for_bucket burst 86400 =
    [("E", burstRecE), ("C", burstRecC)] := by
  rw [compute_risk_for_bucket, if_neg (by simp [burst]), burst_feat]
  simp [burst_recE, burst_recC]

/-- The snapshot store holding the burst bucket with its precomputed
risk, as the loader builds it. -/
def burstStore : Store :=
  ⟨burst, [(0, [0, 1, 2, 3, 4, 5, 6, 7, 8, 9])], 86400,
   [(0, compute_risk_for_bucket burst 86400)], []⟩

theorem burst_btx : get_bucket_transactions burstStore 0 = burst := by
  simp [get_bucket_transactions, burstStore, alookup, burst]

theorem burst_orig : get_entity_risk burstStore 0 ("E" : String) = burstRecE := by
  rw [get_entity_risk]
  have h1 : burstStore.risk_by_bucket = [(0, [("E", burstRecE), ("C", burstRecC)])] := by
    rw [show burstStore.risk_by_bucket = [(0, compute_risk_for_bucket burst 86400)]
      from rfl, burst_risk]
  rw [h1]
  simp [alookup]

def suspBurst : List SuspEdge :=
  [⟨"E", "C", 9050, "structuring"⟩, ⟨"E", "C", 9150, "structuring"⟩,
   ⟨"E", "C", 9250, "structuring"⟩, ⟨"E", "C", 9350, "structuring"⟩,
   ⟨"E", "C", 9450, "structuring"⟩, ⟨"E", "C", 9550, "structuring"⟩,
   ⟨"E", "C", 9650, "structuring"⟩, ⟨"E", "C", 9750, "structuring"⟩,
   ⟨"E", "C", 9850, "structuring"⟩, ⟨"E", "C", 9950, "structuring"⟩]

theorem burst_susp : identify_suspicious_edges ("E" : String) burst burstRecE =
    suspBurst := by
  decide

theorem burst_cf :
    (compute_counterfactual burstStore ("E" : String) 0).counterfactual.risk_score = 0 ∧
    (compute_counterfactual burstStore ("E" : String) 0).delta.tx_count_removed = 10 ∧
    (compute_counterfactual burstStore ("E" : String) 0).original.risk_score = 3/10 ∧
    (compute_counterfactual burstStore ("E" : String) 0).original.evidence.velocity =
      none ∧
    (compute_counterfactual burstStore ("E" : String) 0).original.evidence.circular_flow =
      none ∧
    ((compute_counterfactual burstStore ("E" : String) 0).original.evidence.structuring.map
      StructEv.near_threshold_count) = some 10 := by
  have hclean : burst.filter
      (fun tx => decide (Tx.key tx ∉ suspBurst.map SuspEdge.key)) = [] := by decide
  simp only [compute_counterfactual, burst_btx, burst_orig, burst_susp]
  refine ⟨?_, ?_, ?_, ?_, ?_, ?_⟩
  · simp [hclean, compute_risk_for_bucket, alookup, RiskRecord.zero]
  · simp [suspBurst]
  · simp [burstRecE]
  · simp [burstRecE]
  · simp [burstRecE]
  · simp [burstRecE]

-- ──────────── Concrete scenario: the 3-cycle a→b→c→a (C1) ────────────

def triTx : List Tx :=
  [⟨"t1", "a", "b", 100, 0⟩, ⟨"t2", "b", "c", 100, 10⟩, ⟨"t3", "c", "a", 100, 20⟩]

theorem tri_state_a : circState ("a" : String) triTx 4 500 =
    ⟨3, [["a", "b", "c", "a"]]⟩ := by decide

theorem tri_state_b : circState ("b" : String) triTx 4 500 =
    ⟨3, [["b", "c", "a", "b"]]⟩ := by decide

theorem tri_state_c : circState ("c" : String) triTx 4 500 =
    ⟨3, [["c", "a", "b", "c"]]⟩ := by decide

theorem tri_det_a : circular_flow_detector ("a" : String) triTx 4 500 =
    ⟨7/10, some ⟨1, 4, ["b", "c"]⟩⟩ := by
  simp only [circular_flow_detector, tri_state_a]
  norm_num [minCycleLen, clamp01, dedupFS, ssort, insortBy]
  decide

theorem tri_det_b : circular_flow_detector ("b" : String) triTx 4 500 =
    ⟨7/10, some ⟨1, 4, ["a", "c"]⟩⟩ := by
  simp only [circular_flow_detector, tri_state_b]
  norm_num [minCycleLen, clamp01, dedupFS, ssort, insortBy]
  decide

theorem tri_det_c : circular_flow_detector ("c" : String) triTx 4 500 =
    ⟨7/10, some ⟨1, 4, ["a", "b"]⟩⟩ := by
  simp only [circular_flow_detector, tri_state_c]
  norm_num [minCycleLen, clamp01, dedupFS, ssort, insortBy]
  decide

/-- A single-edge graph is acyclic (used to exercise the acyclicity
statements at a concrete input). -/
theorem singleTx_acyclic : Acyclic [⟨"t1", "a", "b", 100, 0⟩] := by
  intro n l h
  cases l with
  | nil =>
      simp only [List.nil_append] at h
      rcases h with ⟨h1, _⟩
      rcases h1 with ⟨tx, htx, _, _, hne⟩
      exact hne rfl
  | cons x xs =>
      simp only [List.cons_append] at h
      rcases h with ⟨h1, h2⟩
      rcases h1 with ⟨tx, htx, hfrom, hto, _⟩
      rcases List.mem_singleton.mp htx with rfl
      have hn : n = "a" := by rw [← hfrom]
      have hx : x = "b" := by rw [← hto]
      subst hn hx
      cases xs with
      | nil =>
          simp only [List.nil_append] at h2
          rcases h2 with ⟨h3, _⟩
          rcases h3 with ⟨tx2, htx2, hfrom2, _, _⟩
          rcases List.mem_singleton.mp htx2 with rfl
          simp at hfrom2
      | cons y ys =>
          simp only [List.cons_append] at h2
          rcases h2 with ⟨h3, _⟩
          rcases h3 with ⟨tx2, htx2, hfrom2, _, _⟩
          rcases List.mem_singleton.mp htx2 with rfl
          simp at hfrom2

-- ──────── Concrete scenario: two disjoint high-risk triangles (C8) ────────

def c8rec : ℚ → RiskRecord := fun q => ⟨q, [], Evidence.empty⟩

def c8risk : List (String × RiskRecord) :=
  [("a1", c8rec 0.5), ("a2", c8rec 0.6), ("a3", c8rec 0.7),
   ("b1", c8rec 0.4), ("b2", c8rec 0.4), ("b3", c8rec 0.8)]

def c8tx : List Tx :=
  [⟨"x1", "a1", "a2", 10, 0⟩, ⟨"x2", "a2", "a3", 10, 0⟩, ⟨"x3", "a3", "a1", 10, 0⟩,
   ⟨"x4", "b1", "b2", 10, 0⟩, ⟨"x5", "b2", "b3", 10, 0⟩, ⟨"x6", "b3", "b1", 10, 0⟩]

theorem c8_hr : high_risk_ids c8risk (3/10) = ["a1", "a2", "a3", "b1", "b2", "b3"] := by
  rw [high_risk_ids]
  have h_fil : c8risk.filter (fun p => decide ((3/10 : ℚ) ≤ p.2.risk_score)) = c8risk := by
    rw [c8risk]
    norm_num [c8rec]
  rw [h_fil]
  simp [c8risk, dedupFS]

theorem c8_sort1 : ssort (fun a b => decide (a ≤ b))
    (["a1", "a2", "a3", "b1", "b2", "b3"] : List String) =
    ["a1", "a2", "a3", "b1", "b2", "b3"] := by
  simp [ssort, insortBy]
  decide

theorem c8_clusters : detect_clusters c8risk c8tx (3/10) =
    [⟨"cluster_0", ["a1", "a2", "a3"], 3/5, 3⟩,
     ⟨"cluster_1", ["b1", "b2", "b3"], 5333/10000, 3⟩] := by
  simp only [detect_clusters, c8_hr, c8_sort1]
  simp [clusterStep, bfs, clusterAdj, dedupFS, alookup,
    RiskRecord.zero, c8risk, c8rec, c8tx, round4]
  norm_num [Int.floor_eq_iff]
  decide

-- ──────────── Evidence presence and suspicious-edge lemmas ────────────

theorem velocity_evidence_of_pos (f : Feature) (allF : List (String × Feature))
    (h : 0.05 < (velocity_detector f allF).score) :
    (velocity_detector f allF).evidence.isSome := by
  rw [velocity_detector] at h ⊢
  by_cases hemp : allF.map (fun p => p.2.total_tx) = []
  · rw [if_pos hemp] at h
    norm_num at h
  · rw [if_neg hemp]
    rfl

theorem structuring_evidence_of_pos (f : Feature)
    (h : 0.05 < (structuring_detector f).score) :
    (structuring_detector f).evidence.isSome := by
  rw [structuring_detector] at h ⊢
  by_cases hemp : f.amounts = []
  · rw [if_pos hemp] at h
    norm_num at h
  · rw [if_neg hemp]
    rfl

theorem circular_evidence_of_pos (e : String) (txs : List Tx) (maxD maxV : Nat)
    (h : 0.05 < (circular_flow_detector e txs maxD maxV).score) :
    (circular_flow_detector e txs maxD maxV).evidence.isSome := by
  rw [circular_flow_detector] at h ⊢
  by_cases hemp : (circState e txs maxD maxV).cycles = []
  · rw [if_pos hemp] at h
    norm_num at h
  · rw [if_neg hemp]
    rfl

theorem nodup_addEdge (acc : List SuspEdge) (tx : Tx) (r : String)
    (h : (acc.map SuspEdge.key).Nodup) : ((addEdge acc tx r).map SuspEdge.key).Nodup := by
  rw [addEdge]
  by_cases hmem : Tx.key tx ∈ acc.map SuspEdge.key
  · rw [if_pos hmem]
    exact h
  · rw [if_neg hmem]
    rw [List.map_append]
    simp only [List.map_singleton]
    rw [List.nodup_append]
    refine ⟨h, List.nodup_singleton _, ?_⟩
    intro a ha hb
    rcases List.mem_singleton.mp hb with rfl
    exact hmem (by simpa [Tx.key, SuspEdge.key] using ha)

theorem nodup_edge_foldl {β : Type} (f : List SuspEdge → β → List SuspEdge)
    (hf : ∀ acc b, (acc.map SuspEdge.key).Nodup → ((f acc b).map SuspEdge.key).Nodup) :
    ∀ (l : List β) (acc : List SuspEdge),
      (acc.map SuspEdge.key).Nodup → ((l.foldl f acc).map SuspEdge.key).Nodup
  | [], acc => fun h => h
  | b :: rest, acc => fun h =>
      nodup_edge_foldl f hf rest (f acc b) (hf acc b h)

theorem nodup_ite_fold {β : Type} (c : Prop) [Decidable c]
    (f : List SuspEdge → β → List SuspEdge)
    (hf : ∀ acc b, (acc.map SuspEdge.key).Nodup → ((f acc b).map SuspEdge.key).Nodup)
    (l : List β) (acc : List SuspEdge) (h : (acc.map SuspEdge.key).Nodup) :
    (((if c then l.foldl f acc else acc)).map SuspEdge.key).Nodup := by
  by_cases hc : c
  · rw [if_pos hc]
    exact nodup_edge_foldl f hf l acc h
  · rw [if_neg hc]
    exact h

/-- The suspicious-edge list is deduplicated by (from_id, to_id, amount)
and capped at 50 entries. -/
theorem identify_suspicious_edges_spec (e : String) (txs : List Tx) (r : RiskRecord) :
    ((identify_suspicious_edges e txs r).map SuspEdge.key).Nodup ∧
    (identify_suspicious_edges e txs r).length ≤ 50 := by
  rw [identify_suspicious_edges]
  constructor
  · apply List.Nodup.sublist ((List.take_sublist _ _).map SuspEdge.key)
    apply nodup_ite_fold _ _ (fun (acc : List SuspEdge) (pr : Tx × Tx) h => by
      by_cases hc : pr.2.timestamp - pr.1.timestamp < 120
      · rw [if_pos hc]
        exact nodup_addEdge _ _ _ h
      · rw [if_neg hc]
        exact h)
    apply nodup_ite_fold _ _ (fun (acc : List SuspEdge) (tx : Tx) h => by
      by_cases hc : (if tx.from_id = e then tx.to_id else tx.from_id) ∈
          (r.evidence.circular_flow.map CircEv.counterparties).getD []
      · rw [if_pos hc]
        exact nodup_addEdge _ _ _ h
      · rw [if_neg hc]
        exact h)
    apply nodup_ite_fold _ _ (fun (acc : List SuspEdge) (tx : Tx) h => by
      by_cases hc : STRUCTURING_LOWER ≤ tx.amount ∧ tx.amount < STRUCTURING_THRESHOLD
      · rw [if_pos hc]
        exact nodup_addEdge _ _ _ h
      · rw [if_neg hc]
        exact h)
    simp
  · rw [MAX_REMOVED_EDGES]
    rw [List.length_take]
    omega

-- ───────────────────────── Claim theorems ─────────────────────────

def c2tx : List Tx :=
  [⟨"u1", "A", "B", 9100, 0⟩, ⟨"u2", "A", "B", 9200, 100⟩, ⟨"u3", "A", "B", 9300, 200⟩,
   ⟨"u4", "A", "B", 9400, 300⟩, ⟨"u5", "A", "B", 9500, 400⟩]

/-- C1 counterexample: on the 3-cycle a→b→c→a the detector reports
shortest_cycle_length 4 (the recorded path [a,b,c,a] has four nodes) and
score 0.7, refuting the claimed length 3 and score 1.0. -/
theorem C1_counterexample :
    ¬((circular_flow_detector ("a" : String) triTx 4 500).score = 1 ∧
      ((circular_flow_detector ("a" : String) triTx 4 500).evidence.map
        CircEv.shortest_cycle_length) = some 3) := by
  rintro ⟨h1, _⟩
  rw [tri_det_a] at h1
  norm_num at h1

/-- C1 (amended): on the 3-cycle a→b→c→a, circular_flow_detector run from
any of the three nodes reports shortest_cycle_length 4 (the node count of
the recorded path including the repeated start) and score 0.7; and on
every bucket whose directed graph is acyclic it returns score 0.0 for
every node. -/
theorem C1_circular_flow :
    ((circular_flow_detector ("a" : String) triTx 4 500).score = 7/10 ∧
      ((circular_flow_detector ("a" : String) triTx 4 500).evidence.map
        CircEv.shortest_cycle_length) = some 4) ∧
    ((circular_flow_detector ("b" : String) triTx 4 500).score = 7/10 ∧
      ((circular_flow_detector ("b" : String) triTx 4 500).evidence.map
        CircEv.shortest_cycle_length) = some 4) ∧
    ((circular_flow_detector ("c" : String) triTx 4 500).score = 7/10 ∧
      ((circular_flow_detector ("c" : String) triTx 4 500).evidence.map
        CircEv.shortest_cycle_length) = some 4) ∧
    (∀ (txs : List Tx) (e : String), Acyclic txs →
      (circular_flow_detector e txs 4 500).score = 0) := by
  refine ⟨⟨?_, ?_⟩, ⟨?_, ?_⟩, ⟨?_, ?_⟩, ?_⟩
  · rw [tri_det_a]
  · rw [tri_det_a]
    rfl
  · rw [tri_det_b]
  · rw [tri_det_b]
    rfl
  · rw [tri_det_c]
  · rw [tri_det_c]
    rfl
  · intro txs e h
    rw [circular_flow_acyclic txs e 4 500 (by omega) h]

/-- C1 witness: the single-edge graph a→b is acyclic and the detector
scores 0 there. -/
theorem C1_witness :
    Acyclic [⟨"t1", "a", "b", 100, 0⟩] ∧
    (circular_flow_detector ("z" : String) [⟨"t1", "a", "b", 100, 0⟩] 4 500).score = 0 :=
  ⟨singleTx_acyclic,
   C1_circular_flow.2.2.2 [⟨"t1", "a", "b", 100, 0⟩] ("z" : String) singleTx_acyclic⟩

/-- C2 counterexample: five inbound transactions of 9100..9500 into B
leave B's amounts list empty and its structuring score 0, refuting the
claim that amounts (and hence the structuring count) cover inbound
transactions. -/
theorem C2_counterexample :
    ((alookup ("B" : String) (extract_features c2tx 86400)).getD
      (finalize RawFeature.empty)).amounts = [] ∧
    (c2tx.filter (fun tx => tx.to_id == ("B" : String) &&
      (decide (STRUCTURING_LOWER ≤ tx.amount) &&
        decide (tx.amount < STRUCTURING_THRESHOLD)))).length = 5 ∧
    (structuring_detector ((alookup ("B" : String) (extract_features c2tx 86400)).getD
      (finalize RawFeature.empty))).score = 0 := by
  refine ⟨by decide, by decide, ?_⟩
  have h : ((alookup ("B" : String) (extract_features c2tx 86400)).getD
      (finalize RawFeature.empty)).amounts = [] := by decide
  rw [structuring_detector, if_pos h]

/-- C2 (amended): the amounts field of an entity's FeatureRecord lists
exactly the amounts of that entity's outbound transactions in bucket
order, and consequently the structuring near-threshold count counts
outbound transactions only. -/
theorem C2_amounts_outbound (txs : List Tx) (bs : Nat) (e : String)
    (h : e ∈ (extract_features txs bs).map Prod.fst) :
    ((alookup e (extract_features txs bs)).getD (finalize RawFeature.empty)).amounts =
      (txs.filter (fun tx => tx.from_id == e)).map Tx.amount ∧
    ∀ ev, (structuring_detector ((alookup e (extract_features txs bs)).getD
        (finalize RawFeature.empty))).evidence = some ev →
      ev.near_threshold_count =
        (((txs.filter (fun tx => tx.from_id == e)).map Tx.amount).filter
          (fun a => decide (STRUCTURING_LOWER ≤ a) &&
            decide (a < STRUCTURING_THRESHOLD))).length := by
  refine ⟨extract_features_amounts e txs bs, ?_⟩
  intro ev hev
  rw [structuring_detector] at hev
  by_cases hemp : ((alookup e (extract_features txs bs)).getD
      (finalize RawFeature.empty)).amounts = []
  · rw [if_pos hemp] at hev
    exact absurd hev (by simp)
  · rw [if_neg hemp] at hev
    simp only [DetRes.mk.injEq, Option.some.injEq] at hev
    rw [← hev]
    simp only [extract_features_amounts e txs bs]

/-- C2 witness: the amended statement instantiated at the sender A of
the five-transaction bucket. -/
theorem C2_witness :
    (("A" : String) ∈ (extract_features c2tx 86400).map Prod.fst) ∧
    (((alookup ("A" : String) (extract_features c2tx 86400)).getD
        (finalize RawFeature.empty)).amounts =
      (c2tx.filter (fun tx => tx.from_id == ("A" : String))).map Tx.amount ∧
    ∀ ev, (structuring_detector ((alookup ("A" : String) (extract_features c2tx 86400)).getD
        (finalize RawFeature.empty))).evidence = some ev →
      ev.near_threshold_count =
        (((c2tx.filter (fun tx => tx.from_id == ("A" : String))).map Tx.amount).filter
          (fun a => decide (STRUCTURING_LOWER ≤ a) &&
            decide (a < STRUCTURING_THRESHOLD))).length) :=
  ⟨by decide, C2_amounts_outbound c2tx 86400 ("A" : String) (by decide)⟩

/-- C3: every entity present in compute_risk_for_bucket's result carries
risk_score = round4(clamp([0,1], 0.4*velocity + 0.3*structuring +
0.3*circular)) where the three scores are the detector outputs on that
bucket, and the risk score lies in [0, 1]. -/
theorem C3_risk_score (txs : List Tx) (bs : Nat) (e : String)
    (h : e ∈ (compute_risk_for_bucket txs bs).map Prod.fst) :
    ∃ f, alookup e (extract_features txs bs) = some f ∧
      ((alookup e (compute_risk_for_bucket txs bs)).getD RiskRecord.zero).risk_score =
        round4 (clamp01 (W_VELOCITY * (velocity_detector f (extract_features txs bs)).score +
          W_STRUCTURING * (structuring_detector f).score +
          W_CIRCULAR * (circular_flow_detector e txs 4 500).score)) ∧
      0 ≤ ((alookup e (compute_risk_for_bucket txs bs)).getD RiskRecord.zero).risk_score ∧
      ((alookup e (compute_risk_for_bucket txs bs)).getD RiskRecord.zero).risk_score ≤ 1 := by
  have hsome : (alookup e (compute_risk_for_bucket txs bs)).isSome := by
    rw [alookup_isSome_iff]
    exact h
  rw [compute_risk_lookup] at hsome ⊢
  cases hf : alookup e (extract_features txs bs) with
  | none => rw [hf] at hsome; simp at hsome
  | some f =>
      refine ⟨f, rfl, ?_⟩
      simp only [Option.map_some', Option.getD_some]
      have hb := round4_unit (clamp01 (W_VELOCITY * (velocity_detector f
          (extract_features txs bs)).score + W_STRUCTURING * (structuring_detector f).score +
          W_CIRCULAR * (circular_flow_detector e txs 4 500).score))
        (clamp01_nonneg _) (clamp01_le_one _)
      exact ⟨rfl, hb.1, hb.2⟩

/-- C3 witness: the burst bucket's entity E is in the result. -/
theorem C3_witness :
    (("E" : String) ∈ (compute_risk_for_bucket burst 86400).map Prod.fst) ∧
    (∃ f, alookup ("E" : String) (extract_features burst 86400) = some f ∧
      ((alookup ("E" : String) (compute_risk_for_bucket burst 86400)).getD
        RiskRecord.zero).risk_score =
        round4 (clamp01 (W_VELOCITY * (velocity_detector f (extract_features burst 86400)).score +
          W_STRUCTURING * (structuring_detector f).score +
          W_CIRCULAR * (circular_flow_detector ("E" : String) burst 4 500).score)) ∧
      0 ≤ ((alookup ("E" : String) (compute_risk_for_bucket burst 86400)).getD
        RiskRecord.zero).risk_score ∧
      ((alookup ("E" : String) (compute_risk_for_bucket burst 86400)).getD
        RiskRecord.zero).risk_score ≤ 1) :=
  ⟨by decide, C3_risk_score burst 86400 ("E" : String) (by decide)⟩

/-- C4: a detector contributes a reasons entry and an evidence key iff
its own score exceeds 0.05; each reason weight is
round4(weight_coefficient * detector_score); reasons are sorted by
weight descending and at most 3 are kept. -/
theorem C4_reasons_evidence (txs : List Tx) (bs : Nat) (e : String)
    (h : e ∈ (compute_risk_for_bucket txs bs).map Prod.fst) :
    ∃ f, alookup e (extract_features txs bs) = some f ∧
      ((∃ a ∈ ((alookup e (compute_risk_for_bucket txs bs)).getD RiskRecord.zero).reasons,
          a.detector = detVelocity) ↔
        0.05 < (velocity_detector f (extract_features txs bs)).score) ∧
      ((∃ a ∈ ((alookup e (compute_risk_for_bucket txs bs)).getD RiskRecord.zero).reasons,
          a.detector = detStructuring) ↔ 0.05 < (structuring_detector f).score) ∧
      ((∃ a ∈ ((alookup e (compute_risk_for_bucket txs bs)).getD RiskRecord.zero).reasons,
          a.detector = detCircular) ↔
        0.05 < (circular_flow_detector e txs 4 500).score) ∧
      (∀ a ∈ ((alookup e (compute_risk_for_bucket txs bs)).getD RiskRecord.zero).reasons,
        a.detector = detVelocity →
          a.weight = round4 (W_VELOCITY *
            (velocity_detector f (extract_features txs bs)).score)) ∧
      (∀ a ∈ ((alookup e (compute_risk_for_bucket txs bs)).getD RiskRecord.zero).reasons,
        a.detector = detStructuring →
          a.weight = round4 (W_STRUCTURING * (structuring_detector f).score)) ∧
      (∀ a ∈ ((alookup e (compute_risk_for_bucket txs bs)).getD RiskRecord.zero).reasons,
        a.detector = detCircular →
          a.weight = round4 (W_CIRCULAR * (circular_flow_detector e txs 4 500).score)) ∧
      ((alookup e (compute_risk_for_bucket txs bs)).getD
        RiskRecord.zero).reasons.Pairwise (fun a b => b.weight ≤ a.weight) ∧
      ((alookup e (compute_risk_for_bucket txs bs)).getD RiskRecord.zero).reasons.length ≤ 3 ∧
      (((alookup e (compute_risk_for_bucket txs bs)).getD
          RiskRecord.zero).evidence.velocity.isSome ↔
        0.05 < (velocity_detector f (extract_features txs bs)).score) ∧
      (((alookup e (compute_risk_for_bucket txs bs)).getD
          RiskRecord.zero).evidence.structuring.isSome ↔
        0.05 < (structuring_detector f).score) ∧
      (((alookup e (compute_risk_for_bucket txs bs)).getD
          RiskRecord.zero).evidence.circular_flow.isSome ↔
        0.05 < (circular_flow_detector e txs 4 500).score) := by
  have hsome : (alookup e (compute_risk_for_bucket txs bs)).isSome := by
    rw [alookup_isSome_iff]
    exact h
  rw [compute_risk_lookup] at hsome ⊢
  cases hf : alookup e (extract_features txs bs) with
  | none => rw [hf] at hsome; simp at hsome
  | some f =>
      refine ⟨f, rfl, ?_⟩
      simp only [Option.map_some', Option.getD_some]
      rw [show entityRisk txs bs e f =
        { risk_score := round4 (clamp01 (W_VELOCITY *
            (velocity_detector f (extract_features txs bs)).score +
            W_STRUCTURING * (structuring_detector f).score +
            W_CIRCULAR * (circular_flow_detector e txs 4 500).score))
          reasons := buildReasons (velocity_detector f (extract_features txs bs))
            (structuring_detector f) (circular_flow_detector e txs 4 500)
          evidence := buildEvidence e txs (velocity_detector f (extract_features txs bs))
            (structuring_detector f) (circular_flow_detector e txs 4 500) } from rfl]
      refine ⟨(buildReasons_velocity _ _ _).1, (buildReasons_structuring _ _ _).1,
        (buildReasons_circular _ _ _).1, (buildReasons_velocity _ _ _).2,
        (buildReasons_structuring _ _ _).2, (buildReasons_circular _ _ _).2,
        buildReasons_sorted _ _ _, buildReasons_length _ _ _, ?_, ?_, ?_⟩
      · rw [show (buildEvidence e txs (velocity_detector f (extract_features txs bs))
          (structuring_detector f) (circular_flow_detector e txs 4 500)).velocity =
            (if 0.05 < (velocity_detector f (extract_features txs bs)).score then
              (velocity_detector f (extract_features txs bs)).evidence else none) from rfl]
        by_cases hc : 0.05 < (velocity_detector f (extract_features txs bs)).score
        · rw [if_pos hc]
          simp only [hc, iff_true]
          exact velocity_evidence_of_pos f (extract_features txs bs) hc
        · rw [if_neg hc]
          simp [hc]
      · rw [show (buildEvidence e txs (velocity_detector f (extract_features txs bs))
          (structuring_detector f) (circular_flow_detector e txs 4 500)).structuring =
            (if 0.05 < (structuring_detector f).score then
              (structuring_detector f).evidence else none) from rfl]
        by_cases hc : 0.05 < (structuring_detector f).score
        · rw [if_pos hc]
          simp only [hc, iff_true]
          exact structuring_evidence_of_pos f hc
        · rw [if_neg hc]
          simp [hc]
      · rw [show (buildEvidence e txs (velocity_detector f (extract_features txs bs))
          (structuring_detector f) (circular_flow_detector e txs 4 500)).circular_flow =
            (if 0.05 < (circular_flow_detector e txs 4 500).score then
              (circular_flow_detector e txs 4 500).evidence else none) from rfl]
        by_cases hc : 0.05 < (circular_flow_detector e txs 4 500).score
        · rw [if_pos hc]
          simp only [hc, iff_true]
          exact circular_evidence_of_pos e txs 4 500 hc
        · rw [if_neg hc]
          simp [hc]

/-- C4 witness: the burst bucket's entity E. -/
theorem C4_witness :
    (("E" : String) ∈ (compute_risk_for_bucket burst 86400).map Prod.fst) ∧
    (∃ f, alookup ("E" : String) (extract_features burst 86400) = some f ∧
      ((∃ a ∈ ((alookup ("E" : String) (compute_risk_for_bucket burst 86400)).getD
          RiskRecord.zero).reasons, a.detector = detVelocity) ↔
        0.05 < (velocity_detector f (extract_features burst 86400)).score) ∧
      ((∃ a ∈ ((alookup ("E" : String) (compute_risk_for_bucket burst 86400)).getD
          RiskRecord.zero).reasons, a.detector = detStructuring) ↔
        0.05 < (structuring_detector f).score) ∧
      ((∃ a ∈ ((alookup ("E" : String) (compute_risk_for_bucket burst 86400)).getD
          RiskRecord.zero).reasons, a.detector = detCircular) ↔
        0.05 < (circular_flow_detector ("E" : String) burst 4 500).score) ∧
      (∀ a ∈ ((alookup ("E" : String) (compute_risk_for_bucket burst 86400)).getD
          RiskRecord.zero).reasons, a.detector = detVelocity →
        a.weight = round4 (W_VELOCITY *
          (velocity_detector f (extract_features burst 86400)).score)) ∧
      (∀ a ∈ ((alookup ("E" : String) (compute_risk_for_bucket burst 86400)).getD
          RiskRecord.zero).reasons, a.detector = detStructuring →
        a.weight = round4 (W_STRUCTURING * (structuring_detector f).score)) ∧
      (∀ a ∈ ((alookup ("E" : String) (compute_risk_for_bucket burst 86400)).getD
          RiskRecord.zero).reasons, a.detector = detCircular →
        a.weight = round4 (W_CIRCULAR *
          (circular_flow_detector ("E" : String) burst 4 500).score)) ∧
      ((alookup ("E" : String) (compute_risk_for_bucket burst 86400)).getD
        RiskRecord.zero).reasons.Pairwise (fun a b => b.weight ≤ a.weight) ∧
      ((alookup ("E" : String) (compute_risk_for_bucket burst 86400)).getD
        RiskRecord.zero).reasons.length ≤ 3 ∧
      (((alookup ("E" : String) (compute_risk_for_bucket burst 86400)).getD
          RiskRecord.zero).evidence.velocity.isSome ↔
        0.05 < (velocity_detector f (extract_features burst 86400)).score) ∧
      (((alookup ("E" : String) (compute_risk_for_bucket burst 86400)).getD
          RiskRecord.zero).evidence.structuring.isSome ↔
        0.05 < (structuring_detector f).score) ∧
      (((alookup ("E" : String) (compute_risk_for_bucket burst 86400)).getD
          RiskRecord.zero).evidence.circular_flow.isSome ↔
        0.05 < (circular_flow_detector ("E" : String) burst 4 500).score)) :=
  ⟨by decide, C4_reasons_evidence burst 86400 ("E" : String) (by decide)⟩

/-- C5: removing the synthetic structuring burst of ten just-under-10000
transactions from entity E, whose only risk signal is structuring,
drives the counterfactual risk score to 0.0 with tx_count_removed = 10;
and in general the suspicious-edge set is deduplicated by
(from_id, to_id, amount) and capped at 50. -/
theorem C5_counterfactual_burst :
    (compute_counterfactual burstStore ("E" : String) 0).counterfactual.risk_score = 0 ∧
    (compute_counterfactual burstStore ("E" : String) 0).delta.tx_count_removed = 10 ∧
    (compute_counterfactual burstStore ("E" : String) 0).original.risk_score = 3/10 ∧
    (compute_counterfactual burstStore ("E" : String) 0).original.evidence.velocity = none ∧
    (compute_counterfactual burstStore
      ("E" : String) 0).original.evidence.circular_flow = none ∧
    ((compute_counterfactual burstStore
      ("E" : String) 0).original.evidence.structuring.map StructEv.near_threshold_count) =
      some 10 ∧
    ∀ (e : String) (txs : List Tx) (r : RiskRecord),
      ((identify_suspicious_edges e txs r).map SuspEdge.key).Nodup ∧
      (identify_suspicious_edges e txs r).length ≤ 50 := by
  refine ⟨burst_cf.1, burst_cf.2.1, burst_cf.2.2.1, burst_cf.2.2.2.1, burst_cf.2.2.2.2.1,
    burst_cf.2.2.2.2.2, ?_⟩
  intro e txs r
  exact identify_suspicious_edges_spec e txs r

/-- The ranking key of _handle_high_risk (nlq.py line 115): an entity's
risk score in the bucket's risk data. -/
def c6key (s : Store) (bucket : Nat) (eid : String) : ℚ :=
  ((alookup eid ((alookup bucket s.risk_by_bucket).getD [])).getD
    RiskRecord.zero).risk_score

/-- The matched list of _handle_high_risk (nlq.py lines 111-114) at
min_risk = 0.6: bucket entities with risk_score >= 0.6, in input order. -/
def c6matched (s : Store) (bucket : Nat) : List String :=
  (((alookup bucket s.risk_by_bucket).getD []).filter
    (fun p => decide ((3/5 : ℚ) ≤ p.2.risk_score))).map (fun p => p.1)

/-- C6: SHOW_HIGH_RISK with min_risk = 0.6 on a fixed snapshot returns
total_count equal to the number of qualifying entities in the bucket,
entity_ids equal to the qualifying entities sorted by risk score
descending and capped at 50, the returned ids pairwise descending in
risk score, and ties broken by stable input order (equal-score entities
keep their relative input order). -/
theorem C6_high_risk_query (s : Store) (bucket : Nat) :
    (handle_high_risk s (3/5) bucket).total_count = (c6matched s bucket).length ∧
    (handle_high_risk s (3/5) bucket).entity_ids =
      (sortKeyDesc (c6key s bucket) (c6matched s bucket)).take 50 ∧
    (handle_high_risk s (3/5) bucket).entity_ids.Pairwise
      (fun a b => c6key s bucket b ≤ c6key s bucket a) ∧
    ∀ q : ℚ,
      (sortKeyDesc (c6key s bucket) (c6matched s bucket)).filter
          (fun e => decide (c6key s bucket e = q)) =
        (c6matched s bucket).filter (fun e => decide (c6key s bucket e = q)) := by
  refine ⟨?_, rfl, ?_, fun q => filter_sortKeyDesc (c6key s bucket) q (c6matched s bucket)⟩
  · show (sortKeyDesc (c6key s bucket) (c6matched s bucket)).length = _
    rw [sortKeyDesc, length_ssort, c6matched, List.length_map]
  · show ((sortKeyDesc (c6key s bucket) (c6matched s bucket)).take 50).Pairwise _
    exact List.Pairwise.sublist (List.take_sublist 50 _)
      (pairwise_sortKeyDesc (c6key s bucket) (c6matched s bucket))

/-- C7: with a nonempty population, (i) if every entity has the same
total_tx then p95 <= p50 and every velocity score is 0; (ii) in the
non-degenerate case the score is clamp((total_tx - p50) / max(p95 - p50, 1), 0, 1);
(iii) an entity at the population median scores 0; (iv) an entity at or
above the 95th percentile scores 1. -/
theorem C7_velocity (f : Feature) (allF : List (String × Feature)) (v : Nat)
    (h : allF ≠ []) :
    ((∀ p ∈ allF, p.2.total_tx = v) →
      (population_stats allF).2 ≤ (population_stats allF).1 ∧
      ∀ g : Feature, (velocity_detector g allF).score = 0) ∧
    ((population_stats allF).1 < (population_stats allF).2 →
      (velocity_detector f allF).score =
        clamp01 (((f.total_tx : ℚ) - ((population_stats allF).1 : ℚ)) /
          ((max (((population_stats allF).2 : Int) - ((population_stats allF).1 : Int))
            1 : Int) : ℚ))) ∧
    (f.total_tx = (population_stats allF).1 → (velocity_detector f allF).score = 0) ∧
    ((population_stats allF).1 < (population_stats allF).2 →
      (population_stats allF).2 ≤ f.total_tx →
      (velocity_detector f allF).score = 1) := by
  refine ⟨fun hu => velocity_uniform allF v h hu, fun hdeg => ?_,
    fun hmed => velocity_at_median f allF h hmed,
    fun hdeg htop => velocity_at_p95 f allF h hdeg htop⟩
  have hne : ¬ (population_stats allF).2 ≤ (population_stats allF).1 := by omega
  rw [velocity_detector_eq f allF h, if_neg hne]

/-- C7 witness: the singleton population of the burst entity E. -/
theorem C7_witness :
    ([(("E" : String), burstFeatE)] ≠ []) ∧
    (((∀ p ∈ [(("E" : String), burstFeatE)], p.2.total_tx = 10) →
      (population_stats [(("E" : String), burstFeatE)]).2 ≤
        (population_stats [(("E" : String), burstFeatE)]).1 ∧
      ∀ g : Feature, (velocity_detector g [(("E" : String), burstFeatE)]).score = 0) ∧
    ((population_stats [(("E" : String), burstFeatE)]).1 <
        (population_stats [(("E" : String), burstFeatE)]).2 →
      (velocity_detector burstFeatE [(("E" : String), burstFeatE)]).score =
        clamp01 (((burstFeatE.total_tx : ℚ) -
            ((population_stats [(("E" : String), burstFeatE)]).1 : ℚ)) /
          ((max (((population_stats [(("E" : String), burstFeatE)]).2 : Int) -
              ((population_stats [(("E" : String), burstFeatE)]).1 : Int))
            1 : Int) : ℚ))) ∧
    (burstFeatE.total_tx = (population_stats [(("E" : String), burstFeatE)]).1 →
      (velocity_detector burstFeatE [(("E" : String), burstFeatE)]).score = 0) ∧
    ((population_stats [(("E" : String), burstFeatE)]).1 <
        (population_stats [(("E" : String), burstFeatE)]).2 →
      (population_stats [(("E" : String), burstFeatE)]).2 ≤ burstFeatE.total_tx →
      (velocity_detector burstFeatE [(("E" : String), burstFeatE)]).score = 1)) :=
  ⟨by decide, C7_velocity burstFeatE [(("E" : String), burstFeatE)] 10 (by decide)⟩

/-- C8: two disjoint high-risk triangles yield exactly the two expected
size-3 clusters with mean risk scores rounded to 4 decimals, in
discovery order; and in general a high-risk entity with no high-risk
neighbour appears in no cluster. -/
theorem C8_two_triangles :
    detect_clusters c8risk c8tx (3/10) =
      [⟨"cluster_0", ["a1", "a2", "a3"], 3/5, 3⟩,
       ⟨"cluster_1", ["b1", "b2", "b3"], 5333/10000, 3⟩] ∧
    ∀ (risk_data : List (String × RiskRecord)) (txs : List Tx) (threshold : ℚ)
      (e : String), e ∈ high_risk_ids risk_data threshold →
      (∀ tx ∈ txs, ¬(tx.from_id ≠ tx.to_id ∧
        tx.from_id ∈ high_risk_ids risk_data threshold ∧
        tx.to_id ∈ high_risk_ids risk_data threshold ∧
        (tx.from_id = e ∨ tx.to_id = e))) →
      ∀ cl ∈ detect_clusters risk_data txs threshold, e ∉ cl.entity_ids :=
  ⟨c8_clusters,
   fun risk_data txs threshold e he hnb =>
     isolated_not_in_clusters risk_data txs threshold e he hnb⟩

/-- C8 witness: a single isolated high-risk entity in an empty
transaction list is in no cluster. -/
theorem C8_witness :
    (("x" : String) ∈ high_risk_ids [(("x" : String), c8rec 1)] 0) ∧
    (∀ tx ∈ ([] : List Tx), ¬(tx.from_id ≠ tx.to_id ∧
      tx.from_id ∈ high_risk_ids [(("x" : String), c8rec 1)] 0 ∧
      tx.to_id ∈ high_risk_ids [(("x" : String), c8rec 1)] 0 ∧
      (tx.from_id = "x" ∨ tx.to_id = "x"))) ∧
    ∀ cl ∈ detect_clusters [(("x" : String), c8rec 1)] [] 0,
      ("x" : String) ∉ cl.entity_ids :=
  ⟨by decide, by simp,
   C8_two_triangles.2 [(("x" : String), c8rec 1)] [] 0 "x" (by decide) (by simp)⟩

/-- C9: compute_counterfactual never mutates the snapshot store: with
every store access threaded explicitly, the store coming out is the
store that went in (all four components unchanged), and the returned
result is exactly compute_counterfactual of the untouched store; risk
recomputation happens only on the freshly built filtered list. -/
theorem C9_no_mutation (s : Store) (e : String) (bucket : Nat) :
    (compute_counterfactual_st s e bucket).2 = s ∧
    (compute_counterfactual_st s e bucket).2.transactions = s.transactions ∧
    (compute_counterfactual_st s e bucket).2.bucket_index = s.bucket_index ∧
    (compute_counterfactual_st s e bucket).2.entities = s.entities ∧
    (compute_counterfactual_st s e bucket).2.risk_by_bucket = s.risk_by_bucket ∧
    (compute_counterfactual_st s e bucket).1 = compute_counterfactual s e bucket :=
  ⟨rfl, rfl, rfl, rfl, rfl, rfl⟩

/-- The triangle gives a concrete nonzero circular-flow score. -/
theorem tri_score_ne : (circular_flow_detector ("a" : String) triTx 4 500).score ≠ 0 := by
  rw [tri_det_a]
  norm_num

/-- C10: whenever circular_flow_detector with max_depth = 4 returns a
nonzero score, the recorded shortest_cycle_length is 3, 4 or 5 and the
score is correspondingly 1.0, 0.7 or 0.4 — no nonzero score below 0.4
is ever produced. -/
theorem C10_depth_bound (txs : List Tx) (e : String)
    (h : (circular_flow_detector e txs 4 500).score ≠ 0) :
    ∃ ev, (circular_flow_detector e txs 4 500).evidence = some ev ∧
      (ev.shortest_cycle_length = 3 ∨ ev.shortest_cycle_length = 4 ∨
        ev.shortest_cycle_length = 5) ∧
      ((circular_flow_detector e txs 4 500).score = 1 ∨
       (circular_flow_detector e txs 4 500).score = 7/10 ∨
       (circular_flow_detector e txs 4 500).score = 2/5) ∧
      ((ev.shortest_cycle_length = 3 ∧ (circular_flow_detector e txs 4 500).score = 1) ∨
       (ev.shortest_cycle_length = 4 ∧ (circular_flow_detector e txs 4 500).score = 7/10) ∨
       (ev.shortest_cycle_length = 5 ∧ (circular_flow_detector e txs 4 500).score = 2/5)) := by
  rcases circular_flow_score_cases txs e h with ⟨ev, hev, hc⟩
  refine ⟨ev, hev, ?_, ?_, hc⟩
  · rcases hc with ⟨h1, _⟩ | ⟨h1, _⟩ | ⟨h1, _⟩
    · exact Or.inl h1
    · exact Or.inr (Or.inl h1)
    · exact Or.inr (Or.inr h1)
  · rcases hc with ⟨_, h2⟩ | ⟨_, h2⟩ | ⟨_, h2⟩
    · exact Or.inl h2
    · exact Or.inr (Or.inl h2)
    · exact Or.inr (Or.inr h2)

/-- C10 witness: the 3-cycle graph at node a, whose score 0.7 is
nonzero and whose shortest recorded cycle has length 4. -/
theorem C10_witness :
    ((circular_flow_detector ("a" : String) triTx 4 500).score ≠ 0) ∧
    (∃ ev, (circular_flow_detector ("a" : String) triTx 4 500).evidence = some ev ∧
      (ev.shortest_cycle_length = 3 ∨ ev.shortest_cycle_length = 4 ∨
        ev.shortest_cycle_length = 5) ∧
      ((circular_flow_detector ("a" : String) triTx 4 500).score = 1 ∨
       (circular_flow_detector ("a" : String) triTx 4 500).score = 7/10 ∨
       (circular_flow_detector ("a" : String) triTx 4 500).score = 2/5) ∧
      ((ev.shortest_cycle_length = 3 ∧
          (circular_flow_detector ("a" : String) triTx 4 500).score = 1) ∨
       (ev.shortest_cycle_length = 4 ∧
          (circular_flow_detector ("a" : String) triTx 4 500).score = 7/10) ∨
       (ev.shortest_cycle_length = 5 ∧
          (circular_flow_detector ("a" : String) triTx 4 500).score = 2/5))) :=
  ⟨tri_score_ne, C10_depth_bound triTx "a" tri_score_ne⟩

end Angela
